import Mathlib

/-!
Twitch analytics dashboard (`frontend/src/components/Dashboard.js`)

A shallow embedding of the data-fetch stage, the state store and the data side of the
three rendering routines of the `TwitchDashboard` component, followed by the properties
proved about them.

Modelling conventions

* The React state is the record `State`; each `setX(v)` is a record update.  An
  asynchronous operation (`fetchData`, `refreshData`) is modelled by the state it has
  produced once its promise chain has run to completion, with no other event interleaved.
* The outcome of the five `fetchWithTimeout` calls is the record `Responses`; every
  outcome carries the instant at which it settles, so that `Promise.all` can reject with
  the reason of the request that rejected first.
* `new Date()` and `Math.random()` read the record `World`, which is threaded through
  every routine that calls them and counts the reads.
* JavaScript numbers are modelled by `Int` (viewer counts, calendar components) and by
  exact rationals (random factors); time values are integers of milliseconds, the local
  time zone is UTC and the range limit of time values (8.64e15 ms) is not modelled.
-/

namespace Dashboard

/-! ## Data model -/

/-- Category record (an element of `categories`). -/
structure Category where
  category : String
  viewers : Int
  tags : String
  image_url : String
  deriving DecidableEq, Repr

/-- Stream record (an element of `streams`). -/
structure Stream where
  channel : String
  category : String
  title : String
  viewers : Int
  tags : String
  deriving DecidableEq, Repr

/-- History point of a category (an element of `categoryHistory`). -/
structure CategoryHistoryItem where
  category : String
  hour : Int
  day : Int
  month : Int
  avg_viewers : Int
  max_viewers : Int
  min_viewers : Int
  count : Int
  deriving DecidableEq, Repr

/-- History point of a stream (an element of `streamsHistory`). -/
structure StreamHistoryItem where
  channel : String
  hour : Int
  day : Int
  month : Int
  avg_viewers : Int
  max_viewers : Int
  min_viewers : Int
  count : Int
  deriving DecidableEq, Repr

/-- Statistics summary. -/
structure Statistics where
  top_categories : List Category
  top_streams : List Stream
  total_viewers : Int
  last_update : String
  deriving DecidableEq, Repr

/-- The thirteen `useState` cells of `TwitchDashboard`. -/
structure State where
  categories : List Category
  streams : List Stream
  categoryHistory : List CategoryHistoryItem
  streamsHistory : List StreamHistoryItem
  selectedCategory : Option String
  selectedStreamer : Option String
  timeRange : String
  loading : Bool
  activeTab : String
  error : Option String
  showDataTable : Bool
  statistics : Option Statistics
  viewMode : String
  deriving DecidableEq, Repr

/-- The initial values passed to `useState` (lines 19-31). -/
def initialState : State where
  categories := []
  streams := []
  categoryHistory := []
  streamsHistory := []
  selectedCategory := none
  selectedStreamer := none
  timeRange := "24h"
  loading := true
  activeTab := "overview"
  error := none
  showDataTable := false
  statistics := none
  viewMode := "light"

/-- Truthiness of a nullable string: `null` and the empty string are falsy. -/
def truthy : Option String → Bool
  | none => false
  | some v => v != ""

def mockCategories : List Category :=
  [ { category := "Just Chatting", viewers := 380000, tags := "IRL, Talk Show",
      image_url := "/api/placeholder/60/80" } ]

def mockStreams : List Stream :=
  [ { channel := "xQc", category := "Just Chatting", title := "OPENING CASES !gamble",
      viewers := 87000, tags := "English" } ]

def API_BASE_URL : String := "http://localhost:8000/api"

/-! ## Dates (ECMAScript time values, local time zone UTC) -/

/-- A `Date` object: its time value in milliseconds since the epoch. -/
structure JSDate where
  tv : Int
  deriving DecidableEq, Repr

def msPerDay : Int := 86400000
def msPerHour : Int := 3600000
def msPerMinute : Int := 60000
def msPerSecond : Int := 1000

/-- A day of the proleptic Gregorian calendar; `month` runs from 1 to 12. -/
structure Civil where
  year : Int
  month : Int
  day : Int
  deriving DecidableEq, Repr

/-- Calendar day of a day number (days since 1970-01-01). -/
def civilFromDays (days : Int) : Civil :=
  let z := days + 719468
  let era := z / 146097
  let doe := z % 146097
  let yoe := (doe - doe / 1460 + doe / 36524 - doe / 146096) / 365
  let doy := doe - (365 * yoe + yoe / 4 - yoe / 100)
  let mp := (5 * doy + 2) / 153
  let d := doy - (153 * mp + 2) / 5 + 1
  let m := if mp < 10 then mp + 3 else mp - 9
  { year := yoe + era * 400 + (if m ≤ 2 then 1 else 0), month := m, day := d }

/-- Day number of the calendar day `y`-`m`-`d`, `m` from 1 to 12; `d` may lie outside the
month, in which case the day number runs on into the neighbouring months. -/
def daysFromCivil (y m d : Int) : Int :=
  let y1 := if m ≤ 2 then y - 1 else y
  let era := y1 / 400
  let yoe := y1 % 400
  let mp := if m > 2 then m - 3 else m + 9
  let doy := (153 * mp + 2) / 5 + d - 1
  let doe := yoe * 365 + yoe / 4 - yoe / 100 + doy
  era * 146097 + doe - 719468

def Day (t : Int) : Int := t / msPerDay
def TimeWithinDay (t : Int) : Int := t % msPerDay
def YearFromTime (t : Int) : Int := (civilFromDays (Day t)).year
/-- Month of a time value, from 0 (January) to 11. -/
def MonthFromTime (t : Int) : Int := (civilFromDays (Day t)).month - 1
def DateFromTime (t : Int) : Int := (civilFromDays (Day t)).day
def HourFromTime (t : Int) : Int := (t / msPerHour) % 24
def MinFromTime (t : Int) : Int := (t / msPerMinute) % 60
def SecFromTime (t : Int) : Int := (t / msPerSecond) % 60
def msFromTime (t : Int) : Int := t % msPerSecond

def MakeTime (hour min sec ms : Int) : Int :=
  hour * msPerHour + min * msPerMinute + sec * msPerSecond + ms

/-- Day number of day `date` of month `month` (from 0) of `year`; months outside 0..11
carry into the year and days outside the month carry into the neighbouring months. -/
def MakeDay (year month date : Int) : Int :=
  daysFromCivil (year + month / 12) (month % 12 + 1) 1 + date - 1

def MakeDate (day time : Int) : Int := day * msPerDay + time

namespace JSDate

def getHours (d : JSDate) : Int := HourFromTime d.tv
def getDate (d : JSDate) : Int := DateFromTime d.tv
def getMonth (d : JSDate) : Int := MonthFromTime d.tv
def getFullYear (d : JSDate) : Int := YearFromTime d.tv

def setMonth (d : JSDate) (month : Int) : JSDate :=
  ⟨MakeDate (MakeDay (YearFromTime d.tv) month (DateFromTime d.tv)) (TimeWithinDay d.tv)⟩

def setDate (d : JSDate) (date : Int) : JSDate :=
  ⟨MakeDate (MakeDay (YearFromTime d.tv) (MonthFromTime d.tv) date) (TimeWithinDay d.tv)⟩

def setHours (d : JSDate) (hour : Int) : JSDate :=
  ⟨MakeDate (Day d.tv)
    (MakeTime hour (MinFromTime d.tv) (SecFromTime d.tv) (msFromTime d.tv))⟩

end JSDate

/-- Decimal digits of `n`, padded with zeros on the left to at least `width` digits. -/
def padStart (width : Nat) (n : Int) : String :=
  let digits := toString n.toNat
  String.mk (List.replicate (width - digits.length) '0') ++ digits

/-- The ISO-8601 text of a date, `Date.prototype.toISOString`. -/
def toISOString (d : JSDate) : String :=
  let y := YearFromTime d.tv
  let year :=
    if 0 ≤ y ∧ y ≤ 9999 then padStart 4 y
    else (if y < 0 then "-" else "+") ++ padStart 6 (if y < 0 then -y else y)
  year ++ "-" ++ padStart 2 (MonthFromTime d.tv + 1) ++ "-" ++ padStart 2 (DateFromTime d.tv)
    ++ "T" ++ padStart 2 (HourFromTime d.tv) ++ ":" ++ padStart 2 (MinFromTime d.tv)
    ++ ":" ++ padStart 2 (SecFromTime d.tv) ++ "." ++ padStart 3 (msFromTime d.tv) ++ "Z"

/-! ## Clock and random source -/

/-- What the routines read from outside the state: `clock k` is the time value returned by
the `k`-th evaluation of `new Date()` and `randomDraws k` the value of the `k`-th call of
`Math.random()`; the two counters say how many reads have been made. -/
structure World where
  clock : Nat → Int
  randomDraws : Nat → ℚ
  clockReads : Nat
  randomReads : Nat

/-- Evaluation of `new Date()`. -/
def newDate (w : World) : JSDate × World :=
  (⟨w.clock w.clockReads⟩, { w with clockReads := w.clockReads + 1 })

/-- Evaluation of `Math.random()`. -/
def mathRandom (w : World) : ℚ × World :=
  (w.randomDraws w.randomReads, { w with randomReads := w.randomReads + 1 })

/-- The function `Math.round`: the nearest integer, halves going up. -/
def mathRound (x : ℚ) : Int := ⌊x + 1 / 2⌋

/-- A traversal that pushes one result per element, in order, while threading the world:
`array.map(body)`, and `for (let i = 0; i < n; i++) out.push(body(i))` when the list is
`List.range n`. -/
def mapWorld {ι α : Type} (body : ι → World → α × World) : List ι → World → List α × World
  | [], w => ([], w)
  | i :: rest, w =>
    let (a, w1) := body i w
    let (as, w2) := mapWorld body rest w1
    (a :: as, w2)

/-! ## Mock data (`loadMockData`, lines 125-225) -/

/-- One iteration of the loop of `generateCategoryHistory` (lines 134-151). -/
def generateCategoryHistoryStep (categoryName : String) (baseViewers : Int) (now : JSDate)
    (i : Nat) (w : World) : CategoryHistoryItem × World :=
  let hourOffset : Int := 24 - i
  let timestamp := now.setHours (now.getHours - hourOffset)
  let (r, w1) := mathRandom w
  let randomFactor : ℚ := 0.8 + r * 0.4
  let viewers := mathRound (baseViewers * randomFactor)
  let (r', w2) := mathRandom w1
  ({ category := categoryName
     hour := timestamp.getHours
     day := timestamp.getDate
     month := timestamp.getMonth + 1
     avg_viewers := viewers
     max_viewers := mathRound (viewers * 1.2)
     min_viewers := mathRound (viewers * 0.8)
     count := mathRound (r' * 20 + 10) }, w2)

def generateCategoryHistory (categoryName : String) (baseViewers : Int) (w : World) :
    List CategoryHistoryItem × World :=
  let (now, w1) := newDate w
  mapWorld (generateCategoryHistoryStep categoryName baseViewers now) (List.range 24) w1

/-- One iteration of the loop of `generateStreamHistory` (lines 172-189). -/
def generateStreamHistoryStep (streamerName : String) (baseViewers : Int) (now : JSDate)
    (i : Nat) (w : World) : StreamHistoryItem × World :=
  let hourOffset : Int := 24 - i
  let timestamp := now.setHours (now.getHours - hourOffset)
  let (r, w1) := mathRandom w
  let randomFactor : ℚ := 0.8 + r * 0.4
  let viewers := mathRound (baseViewers * randomFactor)
  let (r', w2) := mathRandom w1
  ({ channel := streamerName
     hour := timestamp.getHours
     day := timestamp.getDate
     month := timestamp.getMonth + 1
     avg_viewers := viewers
     max_viewers := mathRound (viewers * 1.2)
     min_viewers := mathRound (viewers * 0.8)
     count := mathRound (r' * 10 + 5) }, w2)

def generateStreamHistory (streamerName : String) (baseViewers : Int) (w : World) :
    List StreamHistoryItem × World :=
  let (now, w1) := newDate w
  mapWorld (generateStreamHistoryStep streamerName baseViewers now) (List.range 24) w1

/-- The `forEach` of lines 158-164: the histories of the given categories, one after the
other. -/
def mockCategoryHistory : List Category → World → List CategoryHistoryItem × World
  | [], w => ([], w)
  | cat :: rest, w =>
    let (h, w1) := generateCategoryHistory cat.category cat.viewers w
    let (hs, w2) := mockCategoryHistory rest w1
    (h ++ hs, w2)

/-- The `forEach` of lines 196-202. -/
def mockStreamsHistory : List Stream → World → List StreamHistoryItem × World
  | [], w => ([], w)
  | stream :: rest, w =>
    let (h, w1) := generateStreamHistory stream.channel stream.viewers w
    let (hs, w2) := mockStreamsHistory rest w1
    (h ++ hs, w2)

/-- The object `mockStatistics` of lines 205-210. -/
def mockStatistics (w : World) : Statistics × World :=
  let (now, w1) := newDate w
  ({ top_categories := mockCategories.take 10
     top_streams := mockStreams.take 10
     total_viewers := mockCategories.foldl (fun sum cat => sum + cat.viewers) 0
     last_update := toISOString now }, w1)

/-- The function `loadMockData`: the state after its setters have been applied. -/
def loadMockData (s : State) (w : World) : State × World :=
  let (categoryHistory, w1) := mockCategoryHistory (mockCategories.take 5) w
  let (streamsHistory, w2) := mockStreamsHistory (mockStreams.take 5) w1
  let (statistics, w3) := mockStatistics w2
  let s1 := { s with categories := mockCategories }
  let s2 := { s1 with streams := mockStreams }
  let s3 := { s2 with categoryHistory := categoryHistory }
  let s4 := { s3 with streamsHistory := streamsHistory }
  let s5 := { s4 with statistics := some statistics }
  let s6 :=
    if !truthy s.selectedCategory && decide (mockCategories.length > 0) then
      { s5 with selectedCategory := mockCategories.head?.map (·.category) }
    else s5
  let s7 :=
    if !truthy s.selectedStreamer && decide (mockStreams.length > 0) then
      { s6 with selectedStreamer := mockStreams.head?.map (·.channel) }
    else s6
  (s7, w3)

/-! ## The five requests -/

/-- Conversion of the time range to the hours window in `fetchData` (line 44). -/
def fetchData_hours (timeRange : String) : Nat :=
  if timeRange = "24h" then 24 else if timeRange = "7d" then 168 else 720

/-- Conversion of the time range to the hours window in `refreshData` (line 231). -/
def refreshData_fetchTimeRange (timeRange : String) : Nat :=
  if timeRange = "24h" then 24 else if timeRange = "7d" then 168 else 720

/-- The URLs passed to `fetchWithTimeout` in `fetchData`, in the order of the array given
to `Promise.all` (lines 54-58). -/
def fetchData_urls (timeRange : String) : List String :=
  let hours := fetchData_hours timeRange
  [ API_BASE_URL ++ "/categories",
    API_BASE_URL ++ "/streams",
    API_BASE_URL ++ "/categories/history?hours=" ++ toString hours,
    API_BASE_URL ++ "/streams/history?hours=" ++ toString hours,
    API_BASE_URL ++ "/statistics" ]

/-- The URLs passed to `fetchWithTimeout` in `refreshData` (lines 234-238). -/
def refreshData_urls (timeRange : String) : List String :=
  let fetchTimeRange := refreshData_fetchTimeRange timeRange
  [ API_BASE_URL ++ "/categories",
    API_BASE_URL ++ "/streams",
    API_BASE_URL ++ "/categories/history?hours=" ++ toString fetchTimeRange,
    API_BASE_URL ++ "/streams/history?hours=" ++ toString fetchTimeRange,
    API_BASE_URL ++ "/statistics" ]

/-- A settled promise of `fetchWithTimeout`: the instant at which it settles and either the
parsed JSON body or the message of the error it rejects with. -/
structure Settled (α : Type) where
  time : Nat
  result : Except String α

/-- The outcomes of the five requests, in the order of the request list. -/
structure Responses where
  categories : Settled (List Category)
  streams : Settled (List Stream)
  history : Settled (List CategoryHistoryItem)
  streamsHistory : Settled (List StreamHistoryItem)
  statistics : Settled Statistics

/-- The five payloads a fulfilled `Promise.all` resolves to. -/
structure Payloads where
  categoriesData : List Category
  streamsData : List Stream
  historyData : List CategoryHistoryItem
  streamsHistoryData : List StreamHistoryItem
  statisticsData : Statistics
  deriving DecidableEq, Repr

/-- The rejection of a settled promise, if it is one: its instant and its message. -/
def Settled.rejection {α : Type} (p : Settled α) : List (Nat × String) :=
  match p.result with
  | .error msg => [(p.time, msg)]
  | .ok _ => []

/-- The rejections among the five requests, in the order of the request list. -/
def Responses.rejections (r : Responses) : List (Nat × String) :=
  r.categories.rejection ++ r.streams.rejection ++ r.history.rejection
    ++ r.streamsHistory.rejection ++ r.statistics.rejection

/-- The earliest rejection of a list; among simultaneous ones, the first of the list. -/
def firstRejection : List (Nat × String) → Option (Nat × String)
  | [] => none
  | x :: rest =>
    match firstRejection rest with
    | none => some x
    | some y => if x.1 ≤ y.1 then some x else some y

/-- The function `Promise.all` on the five requests: fulfilled with the five payloads when
all are fulfilled, and otherwise rejected with the reason of the first rejection. -/
def promiseAll (r : Responses) : Except String Payloads :=
  match r.categories.result, r.streams.result, r.history.result, r.streamsHistory.result,
      r.statistics.result with
  | .ok c, .ok s, .ok h, .ok sh, .ok st =>
    .ok { categoriesData := c, streamsData := s, historyData := h,
          streamsHistoryData := sh, statisticsData := st }
  | _, _, _, _, _ =>
    match firstRejection r.rejections with
    | some rej => .error rej.2
    | none => .error ""

/-- At least one of the five requests rejects. -/
def Responses.anyRejects (r : Responses) : Prop := r.rejections ≠ []

/-- All five requests are fulfilled. -/
def Responses.allSucceed (r : Responses) : Prop := r.rejections = []

/-! ## The two load operations -/

/-- The effect body `fetchData` (lines 38-90), run when `timeRange` changes. -/
def fetchData (s : State) (r : Responses) (w : World) : State × World :=
  let s1 := { s with loading := true }
  let s2 := { s1 with error := none }
  match promiseAll r with
  | .ok p =>
    let s3 := { s2 with categories := p.categoriesData }
    let s4 := { s3 with streams := p.streamsData }
    let s5 := { s4 with categoryHistory := p.historyData }
    let s6 := { s5 with streamsHistory := p.streamsHistoryData }
    let s7 := { s6 with statistics := some p.statisticsData }
    let s8 :=
      if !truthy s.selectedCategory && decide (p.categoriesData.length > 0) then
        if !truthy s.selectedCategory then
          { s7 with selectedCategory := p.categoriesData.head?.map (·.category) }
        else s7
      else s7
    let s9 :=
      if !truthy s.selectedStreamer && decide (p.streamsData.length > 0) then
        { s8 with selectedStreamer := p.streamsData.head?.map (·.channel) }
      else s8
    ({ s9 with loading := false }, w)
  | .error message =>
    let s3 := { s2 with error := some message }
    let s4 := { s3 with loading := false }
    loadMockData s4 w

/-- The click handler `refreshData` (lines 228-253). -/
def refreshData (s : State) (r : Responses) : State :=
  let s1 := { s with loading := true }
  match promiseAll r with
  | .ok p =>
    let s2 := { s1 with categories := p.categoriesData }
    let s3 := { s2 with streams := p.streamsData }
    let s4 := { s3 with categoryHistory := p.historyData }
    let s5 := { s4 with streamsHistory := p.streamsHistoryData }
    let s6 := { s5 with statistics := some p.statisticsData }
    { s6 with loading := false }
  | .error _ =>
    let s2 := { s1 with error := some "Failed to refresh data. Using last known data." }
    { s2 with loading := false }

/-! ## Rendering routines (data side) -/

/-- Whether the `current` field of each of the three chart refs holds a DOM node. -/
structure Refs where
  categoryChartRef : Bool
  timeSeriesChartRef : Bool
  streamerChartRef : Bool
  deriving DecidableEq, Repr

/-- Outcome of a rendering routine: it returned at its guard, it threw, or it ran to its
end and drew the given marks. -/
inductive Rendered (α : Type) where
  | skipped
  | threw
  | drew (marks : α)
  deriving DecidableEq, Repr

/-- The method `Array.prototype.sort(compareFn)`: a stable sort that puts `a` before `b`
when `compareFn(a, b)` is negative. -/
def jsSort {α : Type} (compareFn : α → α → Int) (l : List α) : List α :=
  l.insertionSort (fun a b => compareFn a b ≤ 0)

/-- A point of the time-series chart. -/
structure TimePoint where
  date : JSDate
  viewers : Int
  min_viewers : Int
  max_viewers : Int
  deriving DecidableEq, Repr

/-- The callback of `categoryData.map` (lines 463-476). -/
def historyPoint (item : CategoryHistoryItem) (w : World) : TimePoint × World :=
  let (date, w1) := newDate w
  let date1 := date.setMonth (item.month - 1)
  let date2 := date1.setDate item.day
  let date3 := date2.setHours item.hour
  ({ date := date3, viewers := item.avg_viewers, min_viewers := item.min_viewers,
     max_viewers := item.max_viewers }, w1)

/-- One iteration of the fallback loop of `processHistoryData` (lines 488-502). -/
def fallbackPoint (baseViewers : Int) (now : JSDate) (i : Nat) (w : World) :
    TimePoint × World :=
  let timestamp := now.setHours (now.getHours - (24 - (i : Int)))
  let (r, w1) := mathRandom w
  let randomFactor : ℚ := 0.8 + r * 0.4
  let viewers := mathRound (baseViewers * randomFactor)
  ({ date := timestamp, viewers := viewers, min_viewers := mathRound (viewers * 0.9),
     max_viewers := mathRound (viewers * 1.1) }, w1)

/-- The fallback branch of `processHistoryData` (lines 480-504). -/
def processHistoryData_fallback (s : State) (w : World) : List TimePoint × World :=
  match s.categories.find? (fun c => decide (some c.category = s.selectedCategory)) with
  | none => ([], w)
  | some selectedCategoryData =>
    let baseViewers := selectedCategoryData.viewers
    let (now, w1) := newDate w
    mapWorld (fallbackPoint baseViewers now) (List.range 24) w1

/-- The function `processHistoryData` (lines 455-505). -/
def processHistoryData (s : State) (w : World) : List TimePoint × World :=
  if s.categoryHistory.length > 0 then
    let categoryData :=
      s.categoryHistory.filter (fun item => decide (some item.category = s.selectedCategory))
    if categoryData.length > 0 then
      let (points, w1) := mapWorld historyPoint categoryData w
      (jsSort (fun a b => a.date.tv - b.date.tv) points, w1)
    else processHistoryData_fallback s w
  else processHistoryData_fallback s w

/-- The routine `renderTimeSeriesChart` (lines 451-686): the points it draws as dots and
joins by the line.  Reading `timeData[0].min_viewers` of an empty series throws. -/
def renderTimeSeriesChart (refs : Refs) (s : State) (w : World) :
    Rendered (List TimePoint) × World :=
  if !refs.timeSeriesChartRef || !truthy s.selectedCategory then (.skipped, w)
  else
    let (timeData, w1) := processHistoryData s w
    match timeData with
    | [] => (.threw, w1)
    | _ :: _ => (.drew timeData, w1)

/-- The routine `renderStreamerChart` (lines 689-810): the state it leaves and the streams
it draws as bars.  `sort` sorts the array it is called on in place and returns it: with a
selected category that array is the fresh copy made by `filter`, without one it is the
array stored in `streams`. -/
def renderStreamerChart (refs : Refs) (s : State) : State × Rendered (List Stream) :=
  if !refs.streamerChartRef then (s, .skipped)
  else if truthy s.selectedCategory then
    let filteredStreams :=
      s.streams.filter (fun st => decide (some st.category = s.selectedCategory))
    let sortedStreams := (jsSort (fun a b => b.viewers - a.viewers) filteredStreams).take 5
    (s, .drew sortedStreams)
  else
    let sorted := jsSort (fun a b => b.viewers - a.viewers) s.streams
    ({ s with streams := sorted }, .drew (sorted.take 5))

/-- The routine `renderCategoryChart` (lines 314-444): the categories it draws as bars. -/
def renderCategoryChart (refs : Refs) (s : State) : Rendered (List Category) :=
  if !refs.categoryChartRef || s.categories.length == 0 then .skipped
  else .drew (s.categories.take 10)

/-- The rows of the category table (lines 977-993): rank and category. -/
def categoryTableRows (s : State) : List (Nat × Category) :=
  (s.categories.take 10).enum.map (fun (index, cat) => (index + 1, cat))

/-- The "Top streamer" entry of the latest-updates card (line 1060). -/
def topStreamer (s : State) : String :=
  match s.streams with
  | [] => "N/A"
  | st :: _ => st.channel

/-! ## Sample inputs -/

/-- A world whose clock stands at the epoch and whose random draws are all zero. -/
def sampleWorld : World where
  clock := fun _ => 0
  randomDraws := fun _ => 0
  clockReads := 0
  randomReads := 0

def sampleStatistics : Statistics where
  top_categories := []
  top_streams := []
  total_viewers := 300
  last_update := "2025-04-01T00:00:00.000Z"

def sampleCategory : Category where
  category := "Chess"
  viewers := 100
  tags := ""
  image_url := ""

def sampleStreams : List Stream :=
  [ { channel := "alpha", category := "Chess", title := "", viewers := 10, tags := "" },
    { channel := "beta", category := "Chess", title := "", viewers := 20, tags := "" } ]

/-- Five fulfilled requests: one category, two streams, no history. -/
def sampleSuccess : Responses where
  categories := { time := 1, result := .ok [sampleCategory] }
  streams := { time := 2, result := .ok sampleStreams }
  history := { time := 3, result := .ok [] }
  streamsHistory := { time := 4, result := .ok [] }
  statistics := { time := 5, result := .ok sampleStatistics }

/-- The same requests, with the statistics request answered by status 500 and the streams
request timing out later. -/
def sampleFailure : Responses where
  categories := { time := 1, result := .ok [sampleCategory] }
  streams := { time := 5000, result := .error "Request timeout" }
  history := { time := 3, result := .ok [] }
  streamsHistory := { time := 4, result := .ok [] }
  statistics := { time := 5, result := .error "HTTP error 500" }

def allRefs : Refs where
  categoryChartRef := true
  timeSeriesChartRef := true
  streamerChartRef := true

/-- The marks a rendering routine has drawn, if it ran to its end. -/
def Rendered.marks? {α : Type} : Rendered α → Option α
  | .drew marks => some marks
  | _ => none

/-- The streams `renderStreamerChart` chooses from: those of the selected category, or all
of them when no category is selected. -/
def streamPool (s : State) : List Stream :=
  if truthy s.selectedCategory then
    s.streams.filter (fun st => decide (some st.category = s.selectedCategory))
  else s.streams

/-- The items of the category history that belong to the selected category. -/
def selectedHistory (s : State) : List CategoryHistoryItem :=
  s.categoryHistory.filter (fun item => decide (some item.category = s.selectedCategory))

/-- The state `s'` is reached from `s` by a load operation, `fetchData` or `refreshData`,
in which all five requests `r` succeeded. -/
def reachedAfterSuccess (s : State) (r : Responses) (w : World) (s' : State) : Prop :=
  r.allSucceed ∧ (s' = (fetchData s r w).1 ∨ s' = refreshData s r)

/-- Five fulfilled requests with two streams and no category. -/
def sampleNoCategory : Responses where
  categories := { time := 1, result := .ok [] }
  streams := { time := 2, result := .ok sampleStreams }
  history := { time := 3, result := .ok [] }
  streamsHistory := { time := 4, result := .ok [] }
  statistics := { time := 5, result := .ok sampleStatistics }

def sampleHistoryItem : CategoryHistoryItem where
  category := "Chess"
  hour := 13
  day := 2
  month := 1
  avg_viewers := 90
  max_viewers := 120
  min_viewers := 60
  count := 4

/-- Five fulfilled requests with one category and one history item of that category. -/
def sampleWithHistory : Responses where
  categories := { time := 1, result := .ok [sampleCategory] }
  streams := { time := 2, result := .ok sampleStreams }
  history := { time := 3, result := .ok [sampleHistoryItem] }
  streamsHistory := { time := 4, result := .ok [] }
  statistics := { time := 5, result := .ok sampleStatistics }

/-- Eleven categories, the last of which has the most viewers. -/
def elevenCategories : List Category :=
  (List.range 10).map
      (fun i => { category := "c" ++ toString i, viewers := 1, tags := "", image_url := "" })
    ++ [ { category := "late", viewers := 2, tags := "", image_url := "" } ]

/-- The request at position `i` of a request list is parameterized by the hours window:
its URL is not the same for all time ranges. -/
def parameterizedByHours (urls : String → List String) (i : Nat) : Prop :=
  ∃ t1 t2 : String, (urls t1)[i]? ≠ (urls t2)[i]?

/-! ## The helper `fetchWithTimeout` (lines 103-122) -/

/-- A thrown JavaScript error: its `name` and its `message`. -/
structure JSError where
  name : String
  message : String
  deriving DecidableEq, Repr

/-- How `fetch` settles when it is not aborted: it resolves with a response, given by its
`ok` flag, its `status` and the outcome of `response.json()`, or it rejects with an
error. -/
inductive FetchOutcome (α : Type) where
  | response (ok : Bool) (status : Nat) (json : Except JSError α)
  | failure (error : JSError)

/-- A request: the instant, in milliseconds after the call, at which `fetch` settles when
it is not aborted, and how it settles. -/
structure Request (α : Type) where
  settlesAt : Nat
  outcome : FetchOutcome α

/-- The `try` block of `fetchWithTimeout`.  The timer aborts the request when it fires
before `fetch` has settled, and `fetch` then rejects with an `AbortError`; once `fetch`
has resolved the timer is cleared, so that reading the body is not subject to it. -/
def fetchWithTimeout_try {α : Type} (req : Request α) (timeout : Nat) : Except JSError α :=
  if timeout ≤ req.settlesAt then
    .error { name := "AbortError", message := "The operation was aborted." }
  else
    match req.outcome with
    | .failure error => .error error
    | .response ok status json =>
      if !ok then .error { name := "Error", message := "HTTP error " ++ toString status }
      else json

/-- The function `fetchWithTimeout(url, timeout = 5000)`; `none` stands for an omitted
second argument. -/
def fetchWithTimeout {α : Type} (req : Request α) (timeout : Option Nat) :
    Except JSError α :=
  match fetchWithTimeout_try req (timeout.getD 5000) with
  | .ok body => .ok body
  | .error error =>
    if error.name = "AbortError" then
      .error { name := "Error", message := "Request timeout" }
    else .error error

/-- A response with status 200 whose body is not JSON, received after 120 ms. -/
def sampleHtmlResponse : Request (List Category) where
  settlesAt := 120
  outcome := .response true 200
    (.error { name := "SyntaxError", message := "Unexpected token < in JSON at position 0" })

/-! ## Effects (lines 37-99 and 264-282) -/

/-- The cells of the state, by name. -/
inductive Field where
  | categories
  | streams
  | categoryHistory
  | streamsHistory
  | selectedCategory
  | selectedStreamer
  | timeRange
  | loading
  | activeTab
  | error
  | showDataTable
  | statistics
  | viewMode
  deriving DecidableEq, Repr

/-- The cell `f` has different values in two states.  A value that differs is a different
object, so that a dependency on such a cell is seen as changed by React. -/
def Field.changed (f : Field) (prev next : State) : Bool :=
  match f with
  | .categories => prev.categories != next.categories
  | .streams => prev.streams != next.streams
  | .categoryHistory => prev.categoryHistory != next.categoryHistory
  | .streamsHistory => prev.streamsHistory != next.streamsHistory
  | .selectedCategory => prev.selectedCategory != next.selectedCategory
  | .selectedStreamer => prev.selectedStreamer != next.selectedStreamer
  | .timeRange => prev.timeRange != next.timeRange
  | .loading => prev.loading != next.loading
  | .activeTab => prev.activeTab != next.activeTab
  | .error => prev.error != next.error
  | .showDataTable => prev.showDataTable != next.showDataTable
  | .statistics => prev.statistics != next.statistics
  | .viewMode => prev.viewMode != next.viewMode

/-- The routines that the effects of the component invoke. -/
inductive Routine where
  | fetchData
  | renderCategoryChart
  | renderTimeSeriesChart
  | renderStreamerChart
  deriving DecidableEq, Repr

/-- Dependency list of the data-loading effect (line 93). -/
def fetchEffect_deps : List Field := [.timeRange]

/-- Dependency list of the effect of lines 95-99. -/
def selectedCategoryEffect_deps : List Field := [.selectedCategory]

/-- Dependency list of the chart effect (lines 272-282). -/
def renderEffect_deps : List Field :=
  [.categories, .streams, .categoryHistory, .streamsHistory, .loading, .selectedCategory,
    .selectedStreamer, .activeTab, .viewMode]

/-- One of the dependencies has changed between two renders. -/
def depsChanged (deps : List Field) (prev next : State) : Bool :=
  deps.any (fun f => f.changed prev next)

/-- Body of the data-loading effect (lines 38-92). -/
def fetchEffect (_s : State) : List Routine := [.fetchData]

/-- Body of the effect of lines 95-99. -/
def selectedCategoryEffect (_s : State) : List Routine :=
  [.renderCategoryChart, .renderTimeSeriesChart, .renderStreamerChart]

/-- Body of the chart effect (lines 264-271). -/
def renderEffect (s : State) : List Routine :=
  if s.loading then []
  else [.renderCategoryChart, .renderTimeSeriesChart, .renderStreamerChart]

/-- The routines invoked by the effects after the render that follows an update of the
state from `prev` to `next`, in the order in which the effects are declared. -/
def effectsAfterUpdate (prev next : State) : List Routine :=
  (if depsChanged fetchEffect_deps prev next then fetchEffect next else [])
    ++ (if depsChanged selectedCategoryEffect_deps prev next then selectedCategoryEffect next
        else [])
    ++ (if depsChanged renderEffect_deps prev next then renderEffect next else [])

/-- The state cells read by each routine; the theme colours are computed from
`viewMode`. -/
def Routine.reads : Routine → List Field
  | .fetchData => [.timeRange, .selectedCategory, .selectedStreamer]
  | .renderCategoryChart => [.categories, .selectedCategory, .viewMode]
  | .renderTimeSeriesChart => [.selectedCategory, .categoryHistory, .categories, .viewMode]
  | .renderStreamerChart => [.selectedCategory, .streams, .selectedStreamer, .viewMode]

/-! ## Geometry of the category chart (lines 320-375) -/

/-- The function `d3.max` on a list of numbers; `none` stands for `undefined`. -/
def d3max : List Int → Option Int
  | [] => none
  | x :: rest =>
    match d3max rest with
    | none => some x
    | some m => some (max x m)

/-- The scale `d3.scaleLinear().domain([d0, d1]).range([r0, r1])`; over a domain of
length zero the scale is the constant midpoint of the range. -/
def scaleLinear (d0 d1 r0 r1 : ℚ) (x : ℚ) : ℚ :=
  let t : ℚ := if d1 - d0 = 0 then 1 / 2 else (x - d0) / (d1 - d0)
  r0 * (1 - t) + r1 * t

/-- Height of the plot area of the category chart: `300 - margin.top - margin.bottom`. -/
def renderCategoryChart_height : ℚ := 300 - 20 - 90

/-- A bar of the category chart: its `y` and `height` attributes. -/
structure BarRect where
  category : String
  viewers : Int
  y : ℚ
  height : ℚ

/-- The bars of `renderCategoryChart` with their geometry (lines 349-375).  Past the guard
the collection is not empty and `d3.max` is defined. -/
def renderCategoryChart_rects (refs : Refs) (s : State) : Rendered (List BarRect) :=
  if !refs.categoryChartRef || s.categories.length == 0 then .skipped
  else
    match d3max (s.categories.map (fun d => d.viewers)) with
    | none => .skipped
    | some m =>
      let y := scaleLinear 0 ((m : ℚ) * 1.1) renderCategoryChart_height 0
      .drew ((s.categories.take 10).map (fun d =>
        { category := d.category, viewers := d.viewers, y := y d.viewers,
          height := renderCategoryChart_height - y d.viewers }))

/-! ## Further sample inputs -/

/-- A world whose clock stands at 2025-01-31T00:00:00.000Z and whose draws are all 1/2. -/
def sampleWorldJan31 : World where
  clock := fun _ => 1738281600000
  randomDraws := fun _ => 1 / 2
  clockReads := 0
  randomReads := 0

/-- A history item of 15 February, 10 h. -/
def sampleFebruaryItem : CategoryHistoryItem where
  category := "Chess"
  hour := 10
  day := 15
  month := 2
  avg_viewers := 90
  max_viewers := 120
  min_viewers := 60
  count := 4

/-- The draws of the world lie in the interval [0, 1). -/
def World.drawsInUnit (w : World) : Prop :=
  ∀ k, 0 ≤ w.randomDraws k ∧ w.randomDraws k < 1

instance (r : Responses) : Decidable r.anyRejects := by
  unfold Responses.anyRejects; infer_instance

instance (r : Responses) : Decidable r.allSucceed := by
  unfold Responses.allSucceed; infer_instance

/-! ## Lemmas on `Promise.all` -/

theorem firstRejection_spec (l : List (Nat × String)) (hl : l ≠ []) :
    ∃ x, firstRejection l = some x ∧ x ∈ l ∧ ∀ y ∈ l, x.1 ≤ y.1 := by
  induction l with
  | nil => exact absurd rfl hl
  | cons a rest ih =>
    by_cases hrest : rest = []
    · subst hrest
      exact ⟨a, by simp [firstRejection], by simp, by simp⟩
    · obtain ⟨x, hx, hmem, hmin⟩ := ih hrest
      by_cases hle : a.1 ≤ x.1
      · refine ⟨a, by simp [firstRejection, hx, hle], by simp, ?_⟩
        intro y hy
        rcases List.mem_cons.1 hy with rfl | hy
        · exact le_rfl
        · exact le_trans hle (hmin y hy)
      · refine ⟨x, by simp [firstRejection, hx, hle], List.mem_cons_of_mem _ hmem, ?_⟩
        intro y hy
        rcases List.mem_cons.1 hy with rfl | hy
        · omega
        · exact hmin y hy

/-- When a request rejects, `Promise.all` rejects with the message of an earliest
rejection. -/
theorem promiseAll_of_anyRejects (r : Responses) (h : r.anyRejects) :
    ∃ t msg, promiseAll r = .error msg ∧ (t, msg) ∈ r.rejections ∧
      ∀ rej ∈ r.rejections, t ≤ rej.1 := by
  obtain ⟨x, hx, hmem, hmin⟩ := firstRejection_spec r.rejections h
  refine ⟨x.1, x.2, ?_, hmem, hmin⟩
  obtain ⟨⟨t1, r1⟩, ⟨t2, r2⟩, ⟨t3, r3⟩, ⟨t4, r4⟩, ⟨t5, r5⟩⟩ := r
  cases r1 <;> cases r2 <;> cases r3 <;> cases r4 <;> cases r5 <;>
    first
    | (exfalso; exact h rfl)
    | (simp only [promiseAll]; rw [hx])

/-- When no request rejects, `Promise.all` is fulfilled with the five bodies, in the order
of the request list. -/
theorem promiseAll_of_allSucceed (r : Responses) (h : r.allSucceed) :
    ∃ p, promiseAll r = .ok p ∧ r.categories.result = .ok p.categoriesData ∧
      r.streams.result = .ok p.streamsData ∧ r.history.result = .ok p.historyData ∧
      r.streamsHistory.result = .ok p.streamsHistoryData ∧
      r.statistics.result = .ok p.statisticsData := by
  obtain ⟨⟨t1, r1⟩, ⟨t2, r2⟩, ⟨t3, r3⟩, ⟨t4, r4⟩, ⟨t5, r5⟩⟩ := r
  cases r1 <;> cases r2 <;> cases r3 <;> cases r4 <;> cases r5 <;>
    first
    | exact ⟨_, rfl, rfl, rfl, rfl, rfl, rfl⟩
    | (exfalso; revert h; simp [Responses.allSucceed, Responses.rejections, Settled.rejection])

/-! ## Load operations: failure and success -/

/-- The collections written by `loadMockData` do not depend on the state it starts from. -/
theorem loadMockData_collections (s : State) (w : World) :
    (loadMockData s w).1.categories = mockCategories ∧
    (loadMockData s w).1.streams = mockStreams ∧
    (loadMockData s w).1.categoryHistory = (mockCategoryHistory (mockCategories.take 5) w).1 ∧
    (loadMockData s w).1.streamsHistory =
      (mockStreamsHistory (mockStreams.take 5)
        (mockCategoryHistory (mockCategories.take 5) w).2).1 ∧
    (loadMockData s w).1.statistics =
      some (mockStatistics
        (mockStreamsHistory (mockStreams.take 5)
          (mockCategoryHistory (mockCategories.take 5) w).2).2).1 ∧
    (loadMockData s w).1.error = s.error ∧
    (loadMockData s w).1.loading = s.loading := by
  unfold loadMockData
  by_cases h1 : truthy s.selectedCategory <;> by_cases h2 : truthy s.selectedStreamer <;>
    simp [h1, h2, mockCategories, mockStreams]

/-- C1: for every prior state (hence every time range) and every outcome of the five
requests in which at least one rejects, `fetchData` ends with `categories = mockCategories`,
`streams = mockStreams`, the two histories equal to the locally generated mock histories,
`statistics` equal to the mock statistics object, `error` equal to the message of the
rejection `Promise.all` rejects with (an earliest one), and `loading = false`. -/
theorem fetchData_failure_loads_mock (s : State) (r : Responses) (w : World)
    (h : r.anyRejects) :
    ∃ t msg, (t, msg) ∈ r.rejections ∧ (∀ rej ∈ r.rejections, t ≤ rej.1) ∧
      (fetchData s r w).1.categories = mockCategories ∧
      (fetchData s r w).1.streams = mockStreams ∧
      (fetchData s r w).1.categoryHistory =
        (mockCategoryHistory (mockCategories.take 5) w).1 ∧
      (fetchData s r w).1.streamsHistory =
        (mockStreamsHistory (mockStreams.take 5)
          (mockCategoryHistory (mockCategories.take 5) w).2).1 ∧
      (fetchData s r w).1.statistics =
        some (mockStatistics
          (mockStreamsHistory (mockStreams.take 5)
            (mockCategoryHistory (mockCategories.take 5) w).2).2).1 ∧
      (fetchData s r w).1.error = some msg ∧
      (fetchData s r w).1.loading = false := by
  obtain ⟨t, msg, hp, hmem, hmin⟩ := promiseAll_of_anyRejects r h
  refine ⟨t, msg, hmem, hmin, ?_⟩
  have hf : fetchData s r w =
      loadMockData { s with loading := false, error := some msg } w := by
    simp only [fetchData, hp]
  rw [hf]
  obtain ⟨h1, h2, h3, h4, h5, h6, h7⟩ :=
    loadMockData_collections { s with loading := false, error := some msg } w
  exact ⟨h1, h2, h3, h4, h5, h6, h7⟩

theorem fetchData_failure_loads_mock_witness :
    sampleFailure.anyRejects ∧
      (fetchData initialState sampleFailure sampleWorld).1.categories = mockCategories ∧
      (fetchData initialState sampleFailure sampleWorld).1.loading = false := by
  obtain ⟨_, _, _, _, h1, _, _, _, _, _, h7⟩ :=
    fetchData_failure_loads_mock initialState sampleFailure sampleWorld (by decide)
  exact ⟨by decide, h1, h7⟩

/-- What `refreshData` does when a request rejects. -/
theorem refreshData_of_anyRejects (s : State) (r : Responses) (h : r.anyRejects) :
    refreshData s r =
      { s with loading := false,
               error := some "Failed to refresh data. Using last known data." } := by
  obtain ⟨t, msg, hp, -, -⟩ := promiseAll_of_anyRejects r h
  simp only [refreshData, hp]

/-- C2, counterexample: from the initial state, a manual refresh in which two requests
reject leaves `categories` and `streams` empty and `statistics` unset; it does not switch
to the mock collections. -/
theorem refreshData_failure_not_mock :
    sampleFailure.anyRejects ∧
      (refreshData initialState sampleFailure).categories = [] ∧
      (refreshData initialState sampleFailure).categories ≠ mockCategories ∧
      (refreshData initialState sampleFailure).streams ≠ mockStreams ∧
      (refreshData initialState sampleFailure).statistics = none := by
  decide

/-- C2, amended: when at least one of the five requests fails, the time-range-triggered
`fetchData` switches the five collections to the mock data, whatever the prior state,
while the manual `refreshData` leaves the five collections as they were. -/
theorem failure_fetchData_mock_refreshData_keeps (s : State) (r : Responses) (w : World)
    (h : r.anyRejects) :
    ((fetchData s r w).1.categories = mockCategories ∧
      (fetchData s r w).1.streams = mockStreams ∧
      (fetchData s r w).1.categoryHistory =
        (mockCategoryHistory (mockCategories.take 5) w).1 ∧
      (fetchData s r w).1.streamsHistory =
        (mockStreamsHistory (mockStreams.take 5)
          (mockCategoryHistory (mockCategories.take 5) w).2).1 ∧
      (fetchData s r w).1.statistics =
        some (mockStatistics
          (mockStreamsHistory (mockStreams.take 5)
            (mockCategoryHistory (mockCategories.take 5) w).2).2).1) ∧
    ((refreshData s r).categories = s.categories ∧
      (refreshData s r).streams = s.streams ∧
      (refreshData s r).categoryHistory = s.categoryHistory ∧
      (refreshData s r).streamsHistory = s.streamsHistory ∧
      (refreshData s r).statistics = s.statistics) := by
  obtain ⟨t, msg, hp, -, -⟩ := promiseAll_of_anyRejects r h
  have hf : fetchData s r w =
      loadMockData { s with loading := false, error := some msg } w := by
    simp only [fetchData, hp]
  obtain ⟨h1, h2, h3, h4, h5, -, -⟩ :=
    loadMockData_collections { s with loading := false, error := some msg } w
  rw [hf, refreshData_of_anyRejects s r h]
  exact ⟨⟨h1, h2, h3, h4, h5⟩, rfl, rfl, rfl, rfl, rfl⟩

theorem failure_fetchData_mock_refreshData_keeps_witness :
    sampleFailure.anyRejects ∧
      (fetchData initialState sampleFailure sampleWorld).1.streams = mockStreams ∧
      (refreshData initialState sampleFailure).streams = initialState.streams :=
  ⟨by decide,
    (failure_fetchData_mock_refreshData_keeps initialState sampleFailure sampleWorld
      (by decide)).1.2.1,
    (failure_fetchData_mock_refreshData_keeps initialState sampleFailure sampleWorld
      (by decide)).2.2.1⟩

/-- C3: when at least one of the five requests rejects, `refreshData` keeps `categories`,
`streams`, `categoryHistory`, `streamsHistory`, `statistics`, `selectedCategory` and
`selectedStreamer` exactly as they were, sets `error` to
"Failed to refresh data. Using last known data." and sets `loading` to false. -/
theorem refreshData_failure_keeps_data (s : State) (r : Responses) (h : r.anyRejects) :
    (refreshData s r).categories = s.categories ∧
    (refreshData s r).streams = s.streams ∧
    (refreshData s r).categoryHistory = s.categoryHistory ∧
    (refreshData s r).streamsHistory = s.streamsHistory ∧
    (refreshData s r).statistics = s.statistics ∧
    (refreshData s r).selectedCategory = s.selectedCategory ∧
    (refreshData s r).selectedStreamer = s.selectedStreamer ∧
    (refreshData s r).error = some "Failed to refresh data. Using last known data." ∧
    (refreshData s r).loading = false := by
  rw [refreshData_of_anyRejects s r h]
  exact ⟨rfl, rfl, rfl, rfl, rfl, rfl, rfl, rfl, rfl⟩

theorem refreshData_failure_keeps_data_witness :
    sampleFailure.anyRejects ∧
      (refreshData (fetchData initialState sampleSuccess sampleWorld).1 sampleFailure).streams
        = sampleStreams ∧
      (refreshData (fetchData initialState sampleSuccess sampleWorld).1 sampleFailure).error
        = some "Failed to refresh data. Using last known data." :=
  ⟨by decide,
    (refreshData_failure_keeps_data (fetchData initialState sampleSuccess sampleWorld).1
      sampleFailure (by decide)).2.1,
    (refreshData_failure_keeps_data (fetchData initialState sampleSuccess sampleWorld).1
      sampleFailure (by decide)).2.2.2.2.2.2.2.1⟩

/-- The collections written by a successful `fetchData`. -/
theorem fetchData_of_ok (s : State) (r : Responses) (w : World) (p : Payloads)
    (hp : promiseAll r = .ok p) :
    (fetchData s r w).1.categories = p.categoriesData ∧
    (fetchData s r w).1.streams = p.streamsData ∧
    (fetchData s r w).1.categoryHistory = p.historyData ∧
    (fetchData s r w).1.streamsHistory = p.streamsHistoryData ∧
    (fetchData s r w).1.statistics = some p.statisticsData ∧
    (fetchData s r w).1.loading = false ∧
    (fetchData s r w).2 = w := by
  simp only [fetchData, hp]
  by_cases h1 : truthy s.selectedCategory <;> by_cases h2 : truthy s.selectedStreamer <;>
    by_cases h3 : p.categoriesData.length > 0 <;>
    by_cases h4 : p.streamsData.length > 0 <;>
    simp [h1, h2, h3, h4]

/-- The state written by a successful `refreshData`. -/
theorem refreshData_of_ok (s : State) (r : Responses) (p : Payloads)
    (hp : promiseAll r = .ok p) :
    refreshData s r =
      { s with categories := p.categoriesData, streams := p.streamsData,
               categoryHistory := p.historyData, streamsHistory := p.streamsHistoryData,
               statistics := some p.statisticsData, loading := false } := by
  simp only [refreshData, hp]

/-- C4: for every prior state, when all five requests succeed, `fetchData` and
`refreshData` set `categories`, `streams`, `categoryHistory`, `streamsHistory` and
`statistics` to exactly the five fetched bodies, taken in the order of the request list,
whatever the previous collections were, and set `loading` to false. -/
theorem success_replaces_wholesale (s : State) (r : Responses) (w : World)
    (h : r.allSucceed) :
    ∃ p : Payloads,
      r.categories.result = .ok p.categoriesData ∧
      r.streams.result = .ok p.streamsData ∧
      r.history.result = .ok p.historyData ∧
      r.streamsHistory.result = .ok p.streamsHistoryData ∧
      r.statistics.result = .ok p.statisticsData ∧
      ((fetchData s r w).1.categories = p.categoriesData ∧
        (fetchData s r w).1.streams = p.streamsData ∧
        (fetchData s r w).1.categoryHistory = p.historyData ∧
        (fetchData s r w).1.streamsHistory = p.streamsHistoryData ∧
        (fetchData s r w).1.statistics = some p.statisticsData ∧
        (fetchData s r w).1.loading = false) ∧
      ((refreshData s r).categories = p.categoriesData ∧
        (refreshData s r).streams = p.streamsData ∧
        (refreshData s r).categoryHistory = p.historyData ∧
        (refreshData s r).streamsHistory = p.streamsHistoryData ∧
        (refreshData s r).statistics = some p.statisticsData ∧
        (refreshData s r).loading = false) := by
  obtain ⟨p, hp, h1, h2, h3, h4, h5⟩ := promiseAll_of_allSucceed r h
  obtain ⟨f1, f2, f3, f4, f5, f6, -⟩ := fetchData_of_ok s r w p hp
  refine ⟨p, h1, h2, h3, h4, h5, ⟨f1, f2, f3, f4, f5, f6⟩, ?_⟩
  rw [refreshData_of_ok s r p hp]
  exact ⟨rfl, rfl, rfl, rfl, rfl, rfl⟩

theorem success_replaces_wholesale_witness :
    sampleSuccess.allSucceed ∧
      ∃ p : Payloads, sampleSuccess.streams.result = .ok p.streamsData ∧
        (fetchData (loadMockData initialState sampleWorld).1 sampleSuccess sampleWorld).1.streams
          = p.streamsData ∧
        (refreshData (loadMockData initialState sampleWorld).1 sampleSuccess).streams
          = p.streamsData := by
  obtain ⟨p, -, h2, -, -, -, ⟨-, f2, -⟩, ⟨-, g2, -⟩⟩ :=
    success_replaces_wholesale (loadMockData initialState sampleWorld).1 sampleSuccess
      sampleWorld (by decide)
  exact ⟨by decide, p, h2, f2, g2⟩

/-! ## The request list -/

/-- C5: the hours window is 24 for the time range "24h", 168 = 7 * 24 for "7d" and
720 = 30 * 24 for every other value, in particular for "30d"; `fetchData` and
`refreshData` compute the same hours value and build the same list of five request URLs
for every time range. -/
theorem hours_window_and_urls_agree (timeRange : String) :
    fetchData_hours "24h" = 24 ∧ fetchData_hours "7d" = 7 * 24 ∧
    fetchData_hours "30d" = 30 * 24 ∧
    fetchData_hours timeRange =
      (if timeRange = "24h" then 24 else if timeRange = "7d" then 168 else 720) ∧
    refreshData_fetchTimeRange timeRange = fetchData_hours timeRange ∧
    refreshData_urls timeRange = fetchData_urls timeRange ∧
    (fetchData_urls timeRange).length = 5 := by
  refine ⟨by decide, by decide, by decide, rfl, rfl, rfl, rfl⟩

/-- C6, counterexample: between the time ranges "24h" and "7d" the URL of the statistics
request (the last of the list) does not change and carries no hours window, while the
URL of the categories/history request (the third) does change. -/
theorem statistics_url_not_parameterized :
    (fetchData_urls "24h")[4]? = some "http://localhost:8000/api/statistics" ∧
    (fetchData_urls "7d")[4]? = some "http://localhost:8000/api/statistics" ∧
    (fetchData_urls "24h")[2]? = some "http://localhost:8000/api/categories/history?hours=24" ∧
    (fetchData_urls "7d")[2]? = some "http://localhost:8000/api/categories/history?hours=168" ∧
    ¬ parameterizedByHours fetchData_urls 4 ∧
    parameterizedByHours fetchData_urls 2 := by
  refine ⟨by decide, by decide, by decide, by decide, ?_, ⟨"24h", "7d", by decide⟩⟩
  rintro ⟨t1, t2, h⟩
  exact h rfl

/-- C6, amended: of the five endpoints requested (categories, streams,
categories/history, streams/history, statistics), the two history endpoints, at positions
2 and 3 of the list, are the ones whose request URL is parameterized by the hours window;
categories, streams and statistics are requested without it.  This holds for the request
list of `fetchData` and for that of `refreshData`. -/
theorem history_urls_parameterized (timeRange : String) (i : Fin 5) :
    fetchData_urls timeRange =
      [ "http://localhost:8000/api/categories",
        "http://localhost:8000/api/streams",
        "http://localhost:8000/api/categories/history?hours="
          ++ toString (fetchData_hours timeRange),
        "http://localhost:8000/api/streams/history?hours="
          ++ toString (fetchData_hours timeRange),
        "http://localhost:8000/api/statistics" ] ∧
    (parameterizedByHours fetchData_urls i ↔ (i = 2 ∨ i = 3)) ∧
    (parameterizedByHours refreshData_urls i ↔ (i = 2 ∨ i = 3)) := by
  refine ⟨?_, ?_, ?_⟩
  · simp [fetchData_urls, API_BASE_URL]
  · fin_cases i
    · exact ⟨fun ⟨_, _, h⟩ => absurd rfl h, fun h => by rcases h with h | h <;> exact absurd h (by decide)⟩
    · exact ⟨fun ⟨_, _, h⟩ => absurd rfl h, fun h => by rcases h with h | h <;> exact absurd h (by decide)⟩
    · exact ⟨fun _ => Or.inl rfl, fun _ => ⟨"24h", "7d", by decide⟩⟩
    · exact ⟨fun _ => Or.inr rfl, fun _ => ⟨"24h", "7d", by decide⟩⟩
    · exact ⟨fun ⟨_, _, h⟩ => absurd rfl h, fun h => by rcases h with h | h <;> exact absurd h (by decide)⟩
  · fin_cases i
    · exact ⟨fun ⟨_, _, h⟩ => absurd rfl h, fun h => by rcases h with h | h <;> exact absurd h (by decide)⟩
    · exact ⟨fun ⟨_, _, h⟩ => absurd rfl h, fun h => by rcases h with h | h <;> exact absurd h (by decide)⟩
    · exact ⟨fun _ => Or.inl rfl, fun _ => ⟨"24h", "7d", by decide⟩⟩
    · exact ⟨fun _ => Or.inr rfl, fun _ => ⟨"24h", "7d", by decide⟩⟩
    · exact ⟨fun ⟨_, _, h⟩ => absurd rfl h, fun h => by rcases h with h | h <;> exact absurd h (by decide)⟩

/-! ## Lemmas on traversals and sorting -/

theorem mapWorld_length {ι α : Type} (body : ι → World → α × World) (l : List ι) (w : World) :
    (mapWorld body l w).1.length = l.length := by
  induction l generalizing w with
  | nil => rfl
  | cons i rest ih => simp [mapWorld, ih]

theorem mapWorld_mem {ι α : Type} (body : ι → World → α × World) (l : List ι) (w : World)
    (a : α) (ha : a ∈ (mapWorld body l w).1) :
    ∃ i ∈ l, ∃ w0 : World, a = (body i w0).1 := by
  induction l generalizing w with
  | nil => simp [mapWorld] at ha
  | cons i rest ih =>
    simp only [mapWorld, List.mem_cons] at ha
    rcases ha with rfl | ha
    · exact ⟨i, by simp, w, rfl⟩
    · obtain ⟨j, hj, w0, rfl⟩ := ih _ ha
      exact ⟨j, List.mem_cons_of_mem _ hj, w0, rfl⟩

/-- A traversal whose body makes `k` random draws per element makes `k` times the length
of the list. -/
theorem mapWorld_randomReads {ι α : Type} (body : ι → World → α × World) (k : Nat)
    (hbody : ∀ i w, (body i w).2.randomReads = w.randomReads + k) (l : List ι) (w : World) :
    (mapWorld body l w).2.randomReads = w.randomReads + k * l.length := by
  induction l generalizing w with
  | nil => simp [mapWorld]
  | cons i rest ih =>
    simp only [mapWorld, List.length_cons]
    rw [ih, hbody]
    ring

theorem jsSort_perm {α : Type} (compareFn : α → α → Int) (l : List α) :
    (jsSort compareFn l).Perm l :=
  List.perm_insertionSort _ l

/-- Sorting by `(a, b) => b.viewers - a.viewers` leaves the viewer counts in
non-increasing order. -/
theorem jsSort_viewers_desc (l : List Stream) :
    (jsSort (fun a b => b.viewers - a.viewers) l).Pairwise
      (fun a b => b.viewers ≤ a.viewers) := by
  haveI : IsTotal Stream (fun a b => b.viewers - a.viewers ≤ 0) :=
    ⟨fun a b => by
      show b.viewers - a.viewers ≤ 0 ∨ a.viewers - b.viewers ≤ 0
      omega⟩
  haveI : IsTrans Stream (fun a b => b.viewers - a.viewers ≤ 0) :=
    ⟨fun a b c hab hbc => by
      have h1 : b.viewers - a.viewers ≤ 0 := hab
      have h2 : c.viewers - b.viewers ≤ 0 := hbc
      show c.viewers - a.viewers ≤ 0
      omega⟩
  have h := List.sorted_insertionSort (fun a b : Stream => b.viewers - a.viewers ≤ 0) l
  refine List.Pairwise.imp ?_ h
  intro a b hab
  have h1 : b.viewers - a.viewers ≤ 0 := hab
  omega

/-- In a list in non-increasing order of viewers, no element after the first `n` has more
viewers than one of the first `n`. -/
theorem take_drop_viewers {α : Type} (viewers : α → Int) (l : List α) (n : Nat)
    (h : l.Pairwise (fun a b => viewers b ≤ viewers a)) :
    ∀ x ∈ l.drop n, ∀ b ∈ l.take n, viewers x ≤ viewers b := by
  have h' := h
  rw [← List.take_append_drop n l, List.pairwise_append] at h'
  intro x hx b hb
  exact h'.2.2 b hb x hx

/-! ## The time-series chart -/

theorem historyPoint_randomReads (item : CategoryHistoryItem) (w : World) :
    (historyPoint item w).2.randomReads = w.randomReads + 0 := rfl

theorem fallbackPoint_randomReads (baseViewers : Int) (now : JSDate) (i : Nat) (w : World) :
    (fallbackPoint baseViewers now i w).2.randomReads = w.randomReads + 1 := rfl

/-- With an item of the selected category in the history, `processHistoryData` maps the
items of that category and sorts the result by date. -/
theorem processHistoryData_of_history (s : State) (w : World)
    (h : selectedHistory s ≠ []) :
    processHistoryData s w =
      (jsSort (fun a b => a.date.tv - b.date.tv)
          (mapWorld historyPoint (selectedHistory s) w).1,
        (mapWorld historyPoint (selectedHistory s) w).2) := by
  have h2 : 0 < (selectedHistory s).length := List.length_pos.2 h
  have h1 : 0 < s.categoryHistory.length := by
    rcases hs : s.categoryHistory with _ | ⟨a, l⟩
    · simp [selectedHistory, hs] at h
    · simp
  unfold selectedHistory at h2
  simp only [processHistoryData, gt_iff_lt, h1, h2, if_true, selectedHistory]

/-- Without an item of the selected category in the history, `processHistoryData` takes
its fallback branch. -/
theorem processHistoryData_of_no_history (s : State) (w : World)
    (h : selectedHistory s = []) :
    processHistoryData s w = processHistoryData_fallback s w := by
  unfold selectedHistory at h
  unfold processHistoryData
  split
  · simp [h]
  · rfl

/-- The fallback branch, when the selected category is among the categories, produces 24
points and makes 24 random draws. -/
theorem processHistoryData_fallback_random (s : State) (w : World) (c : Category)
    (hc : c ∈ s.categories) (hsel : some c.category = s.selectedCategory) :
    (processHistoryData_fallback s w).1.length = 24 ∧
    (processHistoryData_fallback s w).2.randomReads = w.randomReads + 24 := by
  unfold processHistoryData_fallback
  rcases hf : s.categories.find? (fun c => decide (some c.category = s.selectedCategory))
    with _ | d
  · rw [List.find?_eq_none] at hf
    exact absurd (by simpa using hsel) (hf c hc)
  · rw [hf]
    simp only
    constructor
    · rw [mapWorld_length]; simp
    · rw [mapWorld_randomReads _ 1 (fallbackPoint_randomReads _ _)]
      simp [newDate]

/-- Past its guard, with a non-empty series, `renderTimeSeriesChart` draws the series
returned by `processHistoryData`. -/
theorem renderTimeSeriesChart_of_nonempty (refs : Refs) (s : State) (w : World)
    (href : refs.timeSeriesChartRef = true) (hsel : truthy s.selectedCategory = true)
    (hne : (processHistoryData s w).1 ≠ []) :
    renderTimeSeriesChart refs s w =
      (.drew (processHistoryData s w).1, (processHistoryData s w).2) := by
  unfold renderTimeSeriesChart
  simp only [href, hsel, Bool.not_true, Bool.or_self, Bool.false_eq_true, if_false]
  rcases hp : processHistoryData s w with ⟨pts, w1⟩
  rw [hp] at hne
  cases pts with
  | nil => exact absurd rfl hne
  | cons a l => rfl

/-- A state reached after a successful load holds the fetched category history. -/
theorem reachedAfterSuccess_history (s : State) (r : Responses) (w : World) (s' : State)
    (h : reachedAfterSuccess s r w s') :
    r.history.result = .ok s'.categoryHistory := by
  obtain ⟨hall, hs'⟩ := h
  obtain ⟨p, hp, -, -, h3, -, -⟩ := promiseAll_of_allSucceed r hall
  rcases hs' with rfl | rfl
  · rw [(fetchData_of_ok s r w p hp).2.2.1]; exact h3
  · rw [refreshData_of_ok s r p hp]; exact h3

/-- C7, counterexample: the initial load in which all five requests succeed and the
fetched category history is empty selects the first category; the time-series chart then
draws 24 points, none of which can come from the (empty) fetched history, and makes 24
random draws. -/
theorem timeSeries_random_after_success :
    sampleSuccess.allSucceed ∧
    (fetchData initialState sampleSuccess sampleWorld).1.selectedCategory = some "Chess" ∧
    (fetchData initialState sampleSuccess sampleWorld).1.categoryHistory = [] ∧
    (renderTimeSeriesChart allRefs (fetchData initialState sampleSuccess sampleWorld).1
        sampleWorld).1.marks?.map List.length = some 24 ∧
    (renderTimeSeriesChart allRefs (fetchData initialState sampleSuccess sampleWorld).1
        sampleWorld).2.randomReads = sampleWorld.randomReads + 24 := by
  decide

/-- C7, amended: for every state reached after all five requests succeeded, the stored
category history is the fetched one; when it holds at least one item of the selected
category, the time-series chart draws exactly one point per such item, every point drawn
comes from an item of the fetched history of the selected category, and no random draw is
made; when it holds none and the selected category is among the categories, the chart
draws 24 randomly generated points (24 random draws). -/
theorem timeSeries_points_after_success (s : State) (r : Responses) (w w' : World)
    (refs : Refs) (s' : State) (hreach : reachedAfterSuccess s r w s')
    (href : refs.timeSeriesChartRef = true) (hsel : truthy s'.selectedCategory = true) :
    r.history.result = .ok s'.categoryHistory ∧
    (selectedHistory s' ≠ [] →
      ∃ pts, (renderTimeSeriesChart refs s' w').1 = .drew pts ∧
        pts.length = (selectedHistory s').length ∧
        (∀ p ∈ pts, ∃ item ∈ s'.categoryHistory,
          some item.category = s'.selectedCategory ∧
          ∃ w0 : World, p = (historyPoint item w0).1) ∧
        (renderTimeSeriesChart refs s' w').2.randomReads = w'.randomReads) ∧
    (selectedHistory s' = [] →
      ∀ c ∈ s'.categories, some c.category = s'.selectedCategory →
        ∃ pts, (renderTimeSeriesChart refs s' w').1 = .drew pts ∧ pts.length = 24 ∧
          (renderTimeSeriesChart refs s' w').2.randomReads = w'.randomReads + 24) := by
  refine ⟨reachedAfterSuccess_history s r w s' hreach, ?_, ?_⟩
  · intro hne
    have hp := processHistoryData_of_history s' w' hne
    have hlen : (processHistoryData s' w').1.length = (selectedHistory s').length := by
      rw [hp]
      simp only
      rw [(jsSort_perm _ _).length_eq, mapWorld_length]
    have hne' : (processHistoryData s' w').1 ≠ [] := by
      intro h0
      rw [h0] at hlen
      exact hne (List.length_eq_zero.1 hlen.symm)
    rw [renderTimeSeriesChart_of_nonempty refs s' w' href hsel hne']
    refine ⟨_, rfl, hlen, ?_, ?_⟩
    · intro pt hpt
      rw [hp] at hpt
      have hmem := (jsSort_perm _ _).mem_iff.1 hpt
      obtain ⟨item, hitem, w0, rfl⟩ := mapWorld_mem _ _ _ _ hmem
      unfold selectedHistory at hitem
      rw [List.mem_filter] at hitem
      exact ⟨item, hitem.1, by simpa using hitem.2, w0, rfl⟩
    · rw [hp]
      simp only
      rw [mapWorld_randomReads _ 0 historyPoint_randomReads]
      simp
  · intro hnone c hc hcsel
    have hp := processHistoryData_of_no_history s' w' hnone
    obtain ⟨hlen, hrand⟩ := processHistoryData_fallback_random s' w' c hc hcsel
    have hne' : (processHistoryData s' w').1 ≠ [] := by
      intro h0
      rw [hp] at h0
      rw [h0] at hlen
      simp at hlen
    rw [renderTimeSeriesChart_of_nonempty refs s' w' href hsel hne', hp]
    exact ⟨_, rfl, hlen, hrand⟩

theorem timeSeries_points_after_success_witness :
    reachedAfterSuccess initialState sampleWithHistory sampleWorld
        (fetchData initialState sampleWithHistory sampleWorld).1 ∧
      selectedHistory (fetchData initialState sampleWithHistory sampleWorld).1 ≠ [] ∧
      ∃ pts, (renderTimeSeriesChart allRefs
            (fetchData initialState sampleWithHistory sampleWorld).1 sampleWorld).1
          = .drew pts ∧
        pts.length = (selectedHistory
          (fetchData initialState sampleWithHistory sampleWorld).1).length := by
  have hreach : reachedAfterSuccess initialState sampleWithHistory sampleWorld
      (fetchData initialState sampleWithHistory sampleWorld).1 := ⟨by decide, Or.inl rfl⟩
  have hne : selectedHistory (fetchData initialState sampleWithHistory sampleWorld).1 ≠ [] := by
    decide
  obtain ⟨pts, h1, h2, -, -⟩ :=
    (timeSeries_points_after_success initialState sampleWithHistory sampleWorld sampleWorld
      allRefs _ hreach (by decide) (by decide)).2.1 hne
  exact ⟨hreach, hne, pts, h1, h2⟩

/-! ## The top-streamers chart -/

/-- C8, failing input: after a successful load that brought two streams and no category,
no category is selected; `renderStreamerChart` then sorts the stored `streams` array
itself, so that the stored collection is reordered and the "Top streamer" entry changes
from "alpha" to "beta". -/
theorem renderStreamerChart_reorders_streams :
    (fetchData initialState sampleNoCategory sampleWorld).1.selectedCategory = none ∧
    (fetchData initialState sampleNoCategory sampleWorld).1.streams = sampleStreams ∧
    topStreamer (fetchData initialState sampleNoCategory sampleWorld).1 = "alpha" ∧
    (renderStreamerChart allRefs
        (fetchData initialState sampleNoCategory sampleWorld).1).1.streams
      = sampleStreams.reverse ∧
    (renderStreamerChart allRefs
        (fetchData initialState sampleNoCategory sampleWorld).1).1.streams
      ≠ (fetchData initialState sampleNoCategory sampleWorld).1.streams ∧
    topStreamer (renderStreamerChart allRefs
        (fetchData initialState sampleNoCategory sampleWorld).1).1 = "beta" := by
  decide

/-- With a selected category the chart sorts the copy made by `filter`, and the state is
left as it was. -/
theorem renderStreamerChart_state_of_selected (refs : Refs) (s : State)
    (hsel : truthy s.selectedCategory = true) :
    (renderStreamerChart refs s).1 = s := by
  unfold renderStreamerChart
  split
  · rfl
  · simp [hsel]

/-- The bars of the top-streamers chart are the first five of the sorted pool. -/
theorem renderStreamerChart_bars (refs : Refs) (s : State)
    (href : refs.streamerChartRef = true) :
    (renderStreamerChart refs s).2 =
      .drew ((jsSort (fun a b => b.viewers - a.viewers) (streamPool s)).take 5) := by
  unfold renderStreamerChart streamPool
  by_cases hsel : truthy s.selectedCategory = true <;> simp [href, hsel]

/-- C9: for every streams collection and every selection, the bars of the top-streamers
chart are at most 5 streams of the pool (the streams of the selected category, or all
streams when no category is selected), each of the selected category when there is one,
in non-increasing order of viewers; their number is min(5, size of the pool), and every
stream of the pool that is not drawn has viewers less than or equal to every drawn one. -/
theorem renderStreamerChart_top_five (refs : Refs) (s : State)
    (href : refs.streamerChartRef = true) :
    ∃ bars rest : List Stream,
      (renderStreamerChart refs s).2 = .drew bars ∧
      (bars ++ rest).Perm (streamPool s) ∧
      bars.length ≤ 5 ∧
      bars.length = min 5 (streamPool s).length ∧
      (truthy s.selectedCategory = true →
        streamPool s = s.streams.filter
            (fun st => decide (some st.category = s.selectedCategory)) ∧
          ∀ b ∈ bars, some b.category = s.selectedCategory) ∧
      (truthy s.selectedCategory = false → streamPool s = s.streams) ∧
      bars.Pairwise (fun a b => b.viewers ≤ a.viewers) ∧
      ∀ x ∈ rest, ∀ b ∈ bars, x.viewers ≤ b.viewers := by
  have hperm := jsSort_perm (fun a b : Stream => b.viewers - a.viewers) (streamPool s)
  have hsorted := jsSort_viewers_desc (streamPool s)
  refine ⟨(jsSort (fun a b => b.viewers - a.viewers) (streamPool s)).take 5,
    (jsSort (fun a b => b.viewers - a.viewers) (streamPool s)).drop 5,
    renderStreamerChart_bars refs s href, ?_, ?_, ?_, ?_, ?_, ?_, ?_⟩
  · rw [List.take_append_drop]; exact hperm
  · rw [List.length_take]; exact Nat.min_le_left _ _
  · rw [List.length_take, hperm.length_eq]
  · intro hsel
    have hpool : streamPool s = s.streams.filter
        (fun st => decide (some st.category = s.selectedCategory)) := by
      simp [streamPool, hsel]
    refine ⟨hpool, ?_⟩
    intro b hb
    have hb' : b ∈ streamPool s := hperm.mem_iff.1 (List.mem_of_mem_take hb)
    rw [hpool, List.mem_filter] at hb'
    simpa using hb'.2
  · intro hsel
    simp [streamPool, hsel]
  · exact hsorted.sublist (List.take_sublist _ _)
  · exact take_drop_viewers Stream.viewers _ 5 hsorted

theorem renderStreamerChart_top_five_witness :
    allRefs.streamerChartRef = true ∧
      ∃ bars rest : List Stream,
        (renderStreamerChart allRefs
            (fetchData initialState sampleSuccess sampleWorld).1).2 = .drew bars ∧
        (bars ++ rest).Perm (streamPool (fetchData initialState sampleSuccess sampleWorld).1) ∧
        bars.length = min 5
          (streamPool (fetchData initialState sampleSuccess sampleWorld).1).length := by
  obtain ⟨bars, rest, h1, h2, -, h4, -⟩ :=
    renderStreamerChart_top_five allRefs (fetchData initialState sampleSuccess sampleWorld).1
      (by decide)
  exact ⟨by decide, bars, rest, h1, h2, h4⟩

/-! ## The category chart and table -/

/-- C10, counterexample: with eleven categories of which the last has the most viewers,
the chart draws the first ten, the category left out has more viewers than every category
shown, and rank 1 of the table is a category with fewer viewers than the one left out. -/
theorem categoryChart_not_top_ten :
    renderCategoryChart allRefs { initialState with categories := elevenCategories }
      = .drew (elevenCategories.take 10) ∧
    (∃ c ∈ elevenCategories, c ∉ elevenCategories.take 10 ∧
      ∀ b ∈ elevenCategories.take 10, b.viewers < c.viewers) ∧
    (categoryTableRows { initialState with categories := elevenCategories }).head?.map
        (fun row => (row.1, row.2.category, row.2.viewers)) = some (1, "c0", 1) ∧
    (∃ c ∈ elevenCategories, 1 < c.viewers) := by
  refine ⟨by decide, ⟨⟨"late", 2, "", ""⟩, by decide, by decide, by decide⟩, by decide,
    ⟨⟨"late", 2, "", ""⟩, by decide, by decide⟩⟩

/-- The row at position `k` of the category table has rank `k + 1` and shows the category
at position `k` of the first ten. -/
theorem categoryTableRows_getElem? (s : State) (k : Nat) :
    (categoryTableRows s)[k]? = ((s.categories.take 10)[k]?).map (fun c => (k + 1, c)) := by
  unfold categoryTableRows
  rw [List.getElem?_map, List.getElem?_enum]
  cases (s.categories.take 10)[k]? <;> rfl

/-- C10, amended: the category chart and the category table show the first 10 categories
in the order of the stored collection: the bars are its first min(10, n) elements, and the
table row at position k has rank k + 1 and shows the element at position k.  When the
collection is in non-increasing order of viewers, these are the categories with the
highest viewer counts: no category left out has more viewers than a category shown, and
rank 1 is a category with the most viewers. -/
theorem categoryChart_first_ten (refs : Refs) (s : State)
    (href : refs.categoryChartRef = true) (hne : s.categories ≠ []) :
    renderCategoryChart refs s = .drew (s.categories.take 10) ∧
    (s.categories.take 10).length = min 10 s.categories.length ∧
    (∀ k, (categoryTableRows s)[k]? =
      ((s.categories.take 10)[k]?).map (fun c => (k + 1, c))) ∧
    (s.categories.Pairwise (fun a b => b.viewers ≤ a.viewers) →
      (∀ x ∈ s.categories.drop 10, ∀ b ∈ s.categories.take 10, x.viewers ≤ b.viewers) ∧
      ∃ top, (categoryTableRows s)[0]? = some (1, top) ∧
        ∀ c ∈ s.categories, c.viewers ≤ top.viewers) := by
  refine ⟨?_, List.length_take _ _, categoryTableRows_getElem? s, ?_⟩
  · unfold renderCategoryChart
    have : s.categories.length ≠ 0 := fun h => hne (List.length_eq_zero.1 h)
    simp [href, this]
  · intro hsorted
    refine ⟨take_drop_viewers Category.viewers _ 10 hsorted, ?_⟩
    rcases hc : s.categories with _ | ⟨top, rest⟩
    · exact absurd hc hne
    · refine ⟨top, ?_, ?_⟩
      · rw [categoryTableRows_getElem?, hc]; simp
      · intro c hcmem
        rw [hc] at hsorted
        rcases List.mem_cons.1 hcmem with rfl | hmem
        · exact le_rfl
        · exact (List.pairwise_cons.1 hsorted).1 c hmem

theorem categoryChart_first_ten_witness :
    allRefs.categoryChartRef = true ∧
      (fetchData initialState sampleSuccess sampleWorld).1.categories ≠ [] ∧
      renderCategoryChart allRefs (fetchData initialState sampleSuccess sampleWorld).1
        = .drew ((fetchData initialState sampleSuccess sampleWorld).1.categories.take 10) ∧
      ∃ top, (categoryTableRows (fetchData initialState sampleSuccess sampleWorld).1)[0]?
          = some (1, top) ∧
        ∀ c ∈ (fetchData initialState sampleSuccess sampleWorld).1.categories,
          c.viewers ≤ top.viewers :=
  ⟨by decide, by decide,
    (categoryChart_first_ten allRefs (fetchData initialState sampleSuccess sampleWorld).1
      (by decide) (by decide)).1,
    ((categoryChart_first_ten allRefs (fetchData initialState sampleSuccess sampleWorld).1
      (by decide) (by decide)).2.2.2 (by decide)).2⟩

/-! ## The helper `fetchWithTimeout` -/

/-- C11, counterexample: a response with status 200 arrives after 120 ms, before the
default timeout of 5000 ms, but its body is not JSON; the request has completed with an ok
response before the timeout, and `fetchWithTimeout` returns no body: it rethrows the
`SyntaxError` of `response.json()`. -/
theorem fetchWithTimeout_ok_response_without_body :
    sampleHtmlResponse.settlesAt < 5000 ∧
    sampleHtmlResponse.outcome = .response true 200
      (.error { name := "SyntaxError",
                message := "Unexpected token < in JSON at position 0" }) ∧
    fetchWithTimeout sampleHtmlResponse none =
      .error { name := "SyntaxError",
               message := "Unexpected token < in JSON at position 0" } ∧
    ¬ ∃ body, fetchWithTimeout sampleHtmlResponse none = .ok body := by
  refine ⟨by decide, rfl, rfl, ?_⟩
  rintro ⟨body, h⟩
  have h' : fetchWithTimeout sampleHtmlResponse none =
      .error { name := "SyntaxError",
               message := "Unexpected token < in JSON at position 0" } := rfl
  rw [h'] at h
  cases h

/-- When the timer fires before `fetch` has settled, the helper fails with
"Request timeout". -/
theorem fetchWithTimeout_of_timer {α : Type} (req : Request α) (timeout : Option Nat)
    (h : timeout.getD 5000 ≤ req.settlesAt) :
    fetchWithTimeout req timeout =
      .error { name := "Error", message := "Request timeout" } := by
  simp [fetchWithTimeout, fetchWithTimeout_try, h]

/-- When `fetch` settles before the timer fires, the helper answers according to the way
`fetch` has settled. -/
theorem fetchWithTimeout_of_settled {α : Type} (req : Request α) (timeout : Option Nat)
    (h : req.settlesAt < timeout.getD 5000) :
    fetchWithTimeout req timeout =
      match req.outcome with
      | .failure e =>
        if e.name = "AbortError" then
          .error { name := "Error", message := "Request timeout" }
        else .error e
      | .response false status _ =>
        .error { name := "Error", message := "HTTP error " ++ toString status }
      | .response true _ (.ok body) => .ok body
      | .response true _ (.error e) =>
        if e.name = "AbortError" then
          .error { name := "Error", message := "Request timeout" }
        else .error e := by
  have h' : ¬ timeout.getD 5000 ≤ req.settlesAt := by omega
  rcases hout : req.outcome with ok | e
  · rename_i status json
    cases ok <;> cases json <;>
      simp [fetchWithTimeout, fetchWithTimeout_try, h', hout]
  · simp [fetchWithTimeout, fetchWithTimeout_try, h', hout]

/-- C11, amended: `fetchWithTimeout` returns the parsed JSON body exactly when `fetch`
resolves with an ok response before the timeout (5000 ms when the argument is omitted)
and the body parses as JSON; it fails with the message "HTTP error <status>" when the
response is not ok, with the message "Request timeout" when the request was aborted by
the timer, and otherwise (`fetch` rejects, or reading the body fails, with an error that
is not an abort) it rethrows the original error unchanged. -/
theorem fetchWithTimeout_cases {α : Type} (req : Request α) (timeout : Option Nat)
    (error : JSError) (hname : error.name ≠ "AbortError") :
    (∀ body, fetchWithTimeout req timeout = .ok body ↔
      (req.settlesAt < timeout.getD 5000 ∧
        ∃ status, req.outcome = .response true status (.ok body))) ∧
    (∀ status json, req.settlesAt < timeout.getD 5000 →
      req.outcome = .response false status json →
      fetchWithTimeout req timeout =
        .error { name := "Error", message := "HTTP error " ++ toString status }) ∧
    (timeout.getD 5000 ≤ req.settlesAt →
      fetchWithTimeout req timeout =
        .error { name := "Error", message := "Request timeout" }) ∧
    (req.settlesAt < timeout.getD 5000 →
      (req.outcome = .failure error ∨
        ∃ status, req.outcome = .response true status (.error error)) →
      fetchWithTimeout req timeout = .error error) ∧
    (timeout = none → timeout.getD 5000 = 5000) := by
  refine ⟨?_, ?_, ?_, ?_, ?_⟩
  · intro body
    constructor
    · intro h
      by_cases ht : timeout.getD 5000 ≤ req.settlesAt
      · rw [fetchWithTimeout_of_timer req timeout ht] at h
        cases h
      · have ht' : req.settlesAt < timeout.getD 5000 := by omega
        refine ⟨ht', ?_⟩
        rw [fetchWithTimeout_of_settled req timeout ht'] at h
        rcases hout : req.outcome with ok | e
        · rename_i status json
          rw [hout] at h
          cases ok <;> cases json
          · cases h
          · cases h
          · simp only at h
            split at h <;> cases h
          · simp only [Except.ok.injEq] at h
            exact ⟨status, by rw [h]⟩
        · rw [hout] at h
          simp only at h
          split at h <;> cases h
    · rintro ⟨ht, status, hout⟩
      rw [fetchWithTimeout_of_settled req timeout ht, hout]
  · intro status json ht hout
    rw [fetchWithTimeout_of_settled req timeout ht, hout]
  · exact fetchWithTimeout_of_timer req timeout
  · intro ht hout
    rw [fetchWithTimeout_of_settled req timeout ht]
    rcases hout with hout | ⟨status, hout⟩ <;> rw [hout] <;> simp [hname]
  · rintro rfl
    rfl

theorem fetchWithTimeout_cases_witness :
    sampleHtmlResponse.settlesAt < (none : Option Nat).getD 5000 ∧
      fetchWithTimeout sampleHtmlResponse none =
        .error { name := "SyntaxError",
                 message := "Unexpected token < in JSON at position 0" } :=
  ⟨by decide,
    (fetchWithTimeout_cases sampleHtmlResponse none
      { name := "SyntaxError", message := "Unexpected token < in JSON at position 0" }
      (by decide)).2.2.2.1 (by decide) (Or.inr ⟨200, rfl⟩)⟩

/-! ## Default selection -/

/-- The selection left by a successful `fetchData`. -/
theorem fetchData_selection_of_ok (s : State) (r : Responses) (w : World) (p : Payloads)
    (hp : promiseAll r = .ok p) :
    (fetchData s r w).1.selectedCategory =
      (if !truthy s.selectedCategory && decide (p.categoriesData.length > 0) then
        p.categoriesData.head?.map (fun c => c.category)
      else s.selectedCategory) ∧
    (fetchData s r w).1.selectedStreamer =
      (if !truthy s.selectedStreamer && decide (p.streamsData.length > 0) then
        p.streamsData.head?.map (fun st => st.channel)
      else s.selectedStreamer) := by
  simp only [fetchData, hp]
  by_cases h1 : truthy s.selectedCategory <;> by_cases h2 : truthy s.selectedStreamer <;>
    by_cases h3 : p.categoriesData.length > 0 <;>
    by_cases h4 : p.streamsData.length > 0 <;>
    simp [h1, h2, h3, h4]

/-- The selection left by `loadMockData`. -/
theorem loadMockData_selection (s : State) (w : World) :
    (loadMockData s w).1.selectedCategory =
      (if truthy s.selectedCategory then s.selectedCategory
        else mockCategories.head?.map (fun c => c.category)) ∧
    (loadMockData s w).1.selectedStreamer =
      (if truthy s.selectedStreamer then s.selectedStreamer
        else mockStreams.head?.map (fun st => st.channel)) := by
  unfold loadMockData
  by_cases h1 : truthy s.selectedCategory <;> by_cases h2 : truthy s.selectedStreamer <;>
    simp [h1, h2, mockCategories, mockStreams]

/-- C12: a default selection is set only if none is set.  After a successful `fetchData`,
if `selectedCategory` was null and the loaded categories are not empty then
`selectedCategory` is the category name of their first element; if it was already set (a
non-empty name, the test of the code being `!selectedCategory`) it is unchanged; and with
an empty loaded list it stays as it was.  The same holds for `selectedStreamer` and the
channel of the first loaded stream, and for `loadMockData` with the mock lists. -/
theorem default_selection_only_if_unset (s : State) (r : Responses) (w : World)
    (p : Payloads) (hp : promiseAll r = .ok p) :
    (fetchData s r w).1.categories = p.categoriesData ∧
    (fetchData s r w).1.streams = p.streamsData ∧
    (∀ c rest, s.selectedCategory = none → p.categoriesData = c :: rest →
      (fetchData s r w).1.selectedCategory = some c.category) ∧
    (truthy s.selectedCategory = true →
      (fetchData s r w).1.selectedCategory = s.selectedCategory) ∧
    (p.categoriesData = [] → (fetchData s r w).1.selectedCategory = s.selectedCategory) ∧
    (∀ st rest, s.selectedStreamer = none → p.streamsData = st :: rest →
      (fetchData s r w).1.selectedStreamer = some st.channel) ∧
    (truthy s.selectedStreamer = true →
      (fetchData s r w).1.selectedStreamer = s.selectedStreamer) ∧
    (p.streamsData = [] → (fetchData s r w).1.selectedStreamer = s.selectedStreamer) ∧
    (s.selectedCategory = none →
      (loadMockData s w).1.selectedCategory = mockCategories.head?.map (fun c => c.category)) ∧
    (truthy s.selectedCategory = true →
      (loadMockData s w).1.selectedCategory = s.selectedCategory) ∧
    (s.selectedStreamer = none →
      (loadMockData s w).1.selectedStreamer = mockStreams.head?.map (fun st => st.channel)) ∧
    (truthy s.selectedStreamer = true →
      (loadMockData s w).1.selectedStreamer = s.selectedStreamer) := by
  obtain ⟨f1, f2, -⟩ := fetchData_of_ok s r w p hp
  obtain ⟨hc, hs⟩ := fetchData_selection_of_ok s r w p hp
  obtain ⟨mc, ms⟩ := loadMockData_selection s w
  refine ⟨f1, f2, ?_, ?_, ?_, ?_, ?_, ?_, ?_, ?_, ?_, ?_⟩
  · intro c rest hnone hcons
    rw [hc, hnone, hcons]; simp [truthy]
  · intro ht
    rw [hc, ht]; simp
  · intro hnil
    rw [hc, hnil]; simp
  · intro st rest hnone hcons
    rw [hs, hnone, hcons]; simp [truthy]
  · intro ht
    rw [hs, ht]; simp
  · intro hnil
    rw [hs, hnil]; simp
  · intro hnone
    rw [mc, hnone]; simp [truthy]
  · intro ht
    rw [mc, ht]; simp
  · intro hnone
    rw [ms, hnone]; simp [truthy]
  · intro ht
    rw [ms, ht]; simp

theorem default_selection_only_if_unset_witness :
    (fetchData initialState sampleSuccess sampleWorld).1.selectedCategory = some "Chess" ∧
      (fetchData (fetchData initialState sampleSuccess sampleWorld).1 sampleNoCategory
        sampleWorld).1.selectedCategory = some "Chess" ∧
      (loadMockData initialState sampleWorld).1.selectedStreamer = some "xQc" :=
  ⟨(default_selection_only_if_unset initialState sampleSuccess sampleWorld
      ⟨[sampleCategory], sampleStreams, [], [], sampleStatistics⟩ rfl).2.2.1
      sampleCategory [] rfl rfl,
    (default_selection_only_if_unset (fetchData initialState sampleSuccess sampleWorld).1
      sampleNoCategory sampleWorld ⟨[], sampleStreams, [], [], sampleStatistics⟩ rfl).2.2.2.2.1
      rfl,
    (default_selection_only_if_unset initialState sampleSuccess sampleWorld
      ⟨[sampleCategory], sampleStreams, [], [], sampleStatistics⟩ rfl).2.2.2.2.2.2.2.2.2.2.1
      rfl⟩

/-! ## Redrawing -/

theorem depsChanged_of_mem (deps : List Field) (f : Field) (hf : f ∈ deps)
    (prev next : State) (h : f.changed prev next = true) :
    depsChanged deps prev next = true := by
  unfold depsChanged
  rw [List.any_eq_true]
  exact ⟨f, hf, h⟩

/-- The chart effect invokes the three routines when it fires in a state that is not
loading. -/
theorem effectsAfterUpdate_of_renderEffect (prev next : State)
    (hload : next.loading = false)
    (h : depsChanged renderEffect_deps prev next = true) (routine : Routine)
    (hr : routine ∈ [Routine.renderCategoryChart, Routine.renderTimeSeriesChart,
      Routine.renderStreamerChart]) :
    routine ∈ effectsAfterUpdate prev next := by
  unfold effectsAfterUpdate
  rw [if_pos h]
  apply List.mem_append_right
  simpa [renderEffect, hload] using hr

/-- What the three routines draw is determined by the cells in the dependency list of the
chart effect. -/
theorem render_determined_by_deps (refs : Refs) (s1 s2 : State) (w : World)
    (h : depsChanged renderEffect_deps s1 s2 = false) :
    renderCategoryChart refs s1 = renderCategoryChart refs s2 ∧
    renderTimeSeriesChart refs s1 w = renderTimeSeriesChart refs s2 w ∧
    (renderStreamerChart refs s1).2 = (renderStreamerChart refs s2).2 := by
  simp only [depsChanged, renderEffect_deps, List.any_cons, List.any_nil, Field.changed,
    Bool.or_false, Bool.or_eq_false_iff, bne_eq_false_iff_eq] at h
  obtain ⟨h1, h2, h3, -, -, h6, -, -, -⟩ := h
  refine ⟨?_, ?_, ?_⟩
  · simp only [renderCategoryChart, h1]
  · simp only [renderTimeSeriesChart, processHistoryData, processHistoryData_fallback,
      h1, h3, h6]
  · simp only [renderStreamerChart, h2, h6]
    split_ifs <;> rfl

/-- C13: the three chart views are redrawn whenever selection or theme state changes.  In
every state with `loading = false`, a change of `selectedCategory`, `selectedStreamer` or
`viewMode` (and of `categories`, `streams`, `categoryHistory` or `streamsHistory`)
invokes `renderCategoryChart`, `renderTimeSeriesChart` and `renderStreamerChart`; every
state cell read by these three routines is in the dependency list of the chart effect,
and what they draw is the same in two states that agree on that list. -/
theorem charts_redrawn_on_change (prev next : State) (hload : next.loading = false)
    (hchange : prev.selectedCategory ≠ next.selectedCategory ∨
      prev.selectedStreamer ≠ next.selectedStreamer ∨
      prev.viewMode ≠ next.viewMode ∨
      prev.categories ≠ next.categories ∨
      prev.streams ≠ next.streams ∨
      prev.categoryHistory ≠ next.categoryHistory ∨
      prev.streamsHistory ≠ next.streamsHistory) :
    Routine.renderCategoryChart ∈ effectsAfterUpdate prev next ∧
    Routine.renderTimeSeriesChart ∈ effectsAfterUpdate prev next ∧
    Routine.renderStreamerChart ∈ effectsAfterUpdate prev next ∧
    (∀ routine ∈ [Routine.renderCategoryChart, Routine.renderTimeSeriesChart,
        Routine.renderStreamerChart], ∀ f ∈ routine.reads, f ∈ renderEffect_deps) ∧
    (∀ (refs : Refs) (s1 s2 : State) (w : World),
      depsChanged renderEffect_deps s1 s2 = false →
      renderCategoryChart refs s1 = renderCategoryChart refs s2 ∧
      renderTimeSeriesChart refs s1 w = renderTimeSeriesChart refs s2 w ∧
      (renderStreamerChart refs s1).2 = (renderStreamerChart refs s2).2) := by
  have hdeps : depsChanged renderEffect_deps prev next = true := by
    rcases hchange with h | h | h | h | h | h | h
    · exact depsChanged_of_mem _ .selectedCategory (by decide) _ _
        (by simpa [Field.changed] using h)
    · exact depsChanged_of_mem _ .selectedStreamer (by decide) _ _
        (by simpa [Field.changed] using h)
    · exact depsChanged_of_mem _ .viewMode (by decide) _ _
        (by simpa [Field.changed] using h)
    · exact depsChanged_of_mem _ .categories (by decide) _ _
        (by simpa [Field.changed] using h)
    · exact depsChanged_of_mem _ .streams (by decide) _ _
        (by simpa [Field.changed] using h)
    · exact depsChanged_of_mem _ .categoryHistory (by decide) _ _
        (by simpa [Field.changed] using h)
    · exact depsChanged_of_mem _ .streamsHistory (by decide) _ _
        (by simpa [Field.changed] using h)
  refine ⟨effectsAfterUpdate_of_renderEffect prev next hload hdeps _ (by decide),
    effectsAfterUpdate_of_renderEffect prev next hload hdeps _ (by decide),
    effectsAfterUpdate_of_renderEffect prev next hload hdeps _ (by decide),
    by decide, ?_⟩
  intro refs s1 s2 w h
  exact render_determined_by_deps refs s1 s2 w h

theorem charts_redrawn_on_change_witness :
    Routine.renderStreamerChart ∈
      effectsAfterUpdate (fetchData initialState sampleSuccess sampleWorld).1
        { (fetchData initialState sampleSuccess sampleWorld).1 with viewMode := "dark" } :=
  (charts_redrawn_on_change (fetchData initialState sampleSuccess sampleWorld).1
    { (fetchData initialState sampleSuccess sampleWorld).1 with viewMode := "dark" }
    (by decide) (Or.inr (Or.inr (Or.inl (by decide))))).2.2.1

/-! ## The series of the time-series chart -/

/-- Sorting by `(a, b) => key(a) - key(b)` leaves the keys in non-decreasing order. -/
theorem jsSort_sorted_by_key {α : Type} (key : α → Int) (l : List α) :
    (jsSort (fun a b => key a - key b) l).Pairwise (fun a b => key a ≤ key b) := by
  haveI : IsTotal α (fun a b => key a - key b ≤ 0) :=
    ⟨fun a b => by
      show key a - key b ≤ 0 ∨ key b - key a ≤ 0
      omega⟩
  haveI : IsTrans α (fun a b => key a - key b ≤ 0) :=
    ⟨fun a b c hab hbc => by
      have h1 : key a - key b ≤ 0 := hab
      have h2 : key b - key c ≤ 0 := hbc
      show key a - key c ≤ 0
      omega⟩
  have h := List.sorted_insertionSort (fun a b : α => key a - key b ≤ 0) l
  refine List.Pairwise.imp ?_ h
  intro a b hab
  have h1 : key a - key b ≤ 0 := hab
  omega

/-- The viewer counts of the points made by `historyPoint` are those of the items, in the
same order. -/
theorem mapWorld_historyPoint_viewers (l : List CategoryHistoryItem) (w : World) :
    (mapWorld historyPoint l w).1.map (fun p => (p.viewers, p.min_viewers, p.max_viewers)) =
      l.map (fun item => (item.avg_viewers, item.min_viewers, item.max_viewers)) := by
  induction l generalizing w with
  | nil => rfl
  | cons item rest ih =>
    simp only [mapWorld, List.map_cons, ih]
    rfl

/-- C14: for every category history and selected category such that at least one history
item has that category, `processHistoryData` returns exactly one point per history item
of that category (same count, none from other categories), each with `viewers` equal to
`avg_viewers` and with `min_viewers` and `max_viewers` copied from the item, and the
returned points are in non-decreasing order of date. -/
theorem processHistoryData_one_point_per_item (s : State) (w : World)
    (h : ∃ item ∈ s.categoryHistory, some item.category = s.selectedCategory) :
    (∀ item, item ∈ selectedHistory s ↔
      (item ∈ s.categoryHistory ∧ some item.category = s.selectedCategory)) ∧
    (processHistoryData s w).1.length = (selectedHistory s).length ∧
    ((processHistoryData s w).1.map
        (fun p => (p.viewers, p.min_viewers, p.max_viewers))).Perm
      ((selectedHistory s).map
        (fun item => (item.avg_viewers, item.min_viewers, item.max_viewers))) ∧
    (∀ p ∈ (processHistoryData s w).1, ∃ item ∈ selectedHistory s, ∃ w0 : World,
      p = (historyPoint item w0).1) ∧
    (processHistoryData s w).1.Pairwise (fun a b => a.date.tv ≤ b.date.tv) := by
  have hmem : ∀ item, item ∈ selectedHistory s ↔
      (item ∈ s.categoryHistory ∧ some item.category = s.selectedCategory) := by
    intro item
    simp [selectedHistory, List.mem_filter]
  have hne : selectedHistory s ≠ [] := by
    obtain ⟨item, hitem, hcat⟩ := h
    exact List.ne_nil_of_mem ((hmem item).2 ⟨hitem, hcat⟩)
  have hp := processHistoryData_of_history s w hne
  have hperm := jsSort_perm (fun a b : TimePoint => a.date.tv - b.date.tv)
    (mapWorld historyPoint (selectedHistory s) w).1
  refine ⟨hmem, ?_, ?_, ?_, ?_⟩
  · rw [hp]
    simp only
    rw [hperm.length_eq, mapWorld_length]
  · rw [hp]
    simp only
    rw [← mapWorld_historyPoint_viewers (selectedHistory s) w]
    exact hperm.map _
  · intro p hpt
    rw [hp] at hpt
    obtain ⟨item, hitem, w0, rfl⟩ := mapWorld_mem _ _ _ _ (hperm.mem_iff.1 hpt)
    exact ⟨item, hitem, w0, rfl⟩
  · rw [hp]
    exact jsSort_sorted_by_key (fun p : TimePoint => p.date.tv) _

theorem processHistoryData_one_point_per_item_witness :
    (∃ item ∈ (fetchData initialState sampleWithHistory sampleWorld).1.categoryHistory,
        some item.category =
          (fetchData initialState sampleWithHistory sampleWorld).1.selectedCategory) ∧
      (processHistoryData (fetchData initialState sampleWithHistory sampleWorld).1
          sampleWorld).1.length =
        (selectedHistory (fetchData initialState sampleWithHistory sampleWorld).1).length :=
  ⟨⟨sampleHistoryItem, by decide, by decide⟩,
    (processHistoryData_one_point_per_item
      (fetchData initialState sampleWithHistory sampleWorld).1 sampleWorld
      ⟨sampleHistoryItem, by decide, by decide⟩).2.1⟩

/-- C15, failing input: on 31 January 2025 the point built from a history item of
15 February, 10 h, is dated 15 March, 10 h: `setMonth(1)` on the 31st runs over into
March before `setDate` is applied, so the month of the constructed date is 3, not the
month 2 of the item. -/
theorem historyPoint_month_overflow :
    toISOString (newDate sampleWorldJan31).1 = "2025-01-31T00:00:00.000Z" ∧
    sampleFebruaryItem.month = 2 ∧ sampleFebruaryItem.day = 15 ∧
    sampleFebruaryItem.hour = 10 ∧
    toISOString (historyPoint sampleFebruaryItem sampleWorldJan31).1.date
      = "2025-03-15T10:00:00.000Z" ∧
    (historyPoint sampleFebruaryItem sampleWorldJan31).1.date.getMonth + 1 = 3 ∧
    (historyPoint sampleFebruaryItem sampleWorldJan31).1.date.getMonth + 1
      ≠ sampleFebruaryItem.month ∧
    (historyPoint sampleFebruaryItem sampleWorldJan31).1.date.getDate = 15 ∧
    (historyPoint sampleFebruaryItem sampleWorldJan31).1.date.getHours = 10 := by
  decide

/-- C17, failing input: after a load that selected the category "Chess", a refresh whose
categories and category history are empty leaves "Chess" selected; the chart passes its
guard, `processHistoryData` returns the empty series, and reading `timeData[0]`
throws. -/
theorem renderTimeSeriesChart_reads_empty_series :
    allRefs.timeSeriesChartRef = true ∧
    truthy (refreshData (fetchData initialState sampleSuccess sampleWorld).1
      sampleNoCategory).selectedCategory = true ∧
    (processHistoryData
      (refreshData (fetchData initialState sampleSuccess sampleWorld).1 sampleNoCategory)
      sampleWorld).1 = [] ∧
    (renderTimeSeriesChart allRefs
      (refreshData (fetchData initialState sampleSuccess sampleWorld).1 sampleNoCategory)
      sampleWorld).1 = .threw := by
  decide

/-! ## The mock history generators -/

theorem mathRound_nonneg (x : ℚ) (hx : 0 ≤ x) : 0 ≤ mathRound x := by
  unfold mathRound
  apply Int.floor_nonneg.2
  linarith

/-- An integer below `x` is below the rounding of `x`. -/
theorem le_mathRound (n : Int) (x : ℚ) (h : (n : ℚ) ≤ x) : n ≤ mathRound x := by
  unfold mathRound
  apply Int.le_floor.2
  linarith

/-- An integer above `x` is above the rounding of `x`. -/
theorem mathRound_le (n : Int) (x : ℚ) (h : x ≤ (n : ℚ)) : mathRound x ≤ n := by
  unfold mathRound
  have h1 : ⌊x + 1 / 2⌋ < n + 1 := by
    apply Int.floor_lt.2
    push_cast
    linarith
  omega

/-- Membership in the result of a traversal, with a property of the world that every
step preserves. -/
theorem mapWorld_mem_of_invariant {ι α : Type} (P : World → Prop)
    (body : ι → World → α × World) (hP : ∀ i w, P w → P (body i w).2)
    (l : List ι) (w : World) (hw : P w) (a : α) (ha : a ∈ (mapWorld body l w).1) :
    ∃ i ∈ l, ∃ w0 : World, P w0 ∧ a = (body i w0).1 := by
  induction l generalizing w with
  | nil => simp [mapWorld] at ha
  | cons i rest ih =>
    simp only [mapWorld, List.mem_cons] at ha
    rcases ha with rfl | ha
    · exact ⟨i, by simp, w, hw, rfl⟩
    · obtain ⟨j, hj, w0, hw0, rfl⟩ := ih _ (hP i w hw) ha
      exact ⟨j, List.mem_cons_of_mem _ hj, w0, hw0, rfl⟩

/-- The relations between the viewer counts of a generated history point. -/
theorem generated_viewers_bounds (b : Int) (hb : 0 ≤ b) (r : ℚ) (hr0 : 0 ≤ r) (hr1 : r < 1)
    (avg : Int) (havg : avg = mathRound ((b : ℚ) * (0.8 + r * 0.4))) :
    (∃ f : ℚ, 0.8 ≤ f ∧ f ≤ 1.2 ∧ avg = mathRound ((b : ℚ) * f)) ∧
    mathRound ((avg : ℚ) * 0.8) ≤ avg ∧ avg ≤ mathRound ((avg : ℚ) * 1.2) := by
  have hb' : (0 : ℚ) ≤ (b : ℚ) := by exact_mod_cast hb
  have hf0 : (0.8 : ℚ) ≤ 0.8 + r * 0.4 := by linarith
  have hf1 : (0.8 : ℚ) + r * 0.4 ≤ 1.2 := by norm_num; linarith
  have hnonneg : 0 ≤ avg := by
    rw [havg]
    apply mathRound_nonneg
    apply mul_nonneg hb'
    linarith
  have havg' : (0 : ℚ) ≤ (avg : ℚ) := by exact_mod_cast hnonneg
  refine ⟨⟨0.8 + r * 0.4, hf0, hf1, havg⟩, ?_, ?_⟩
  · apply mathRound_le
    linarith
  · apply le_mathRound
    linarith

/-- The points of `generateCategoryHistory`. -/
theorem generateCategoryHistory_points (name : String) (b : Int) (w : World)
    (hb : 0 ≤ b) (hw : w.drawsInUnit) :
    (generateCategoryHistory name b w).1.length = 24 ∧
    ∀ item ∈ (generateCategoryHistory name b w).1,
      item.category = name ∧
      (∃ f : ℚ, 0.8 ≤ f ∧ f ≤ 1.2 ∧ item.avg_viewers = mathRound ((b : ℚ) * f)) ∧
      item.max_viewers = mathRound (1.2 * (item.avg_viewers : ℚ)) ∧
      item.min_viewers = mathRound (0.8 * (item.avg_viewers : ℚ)) ∧
      item.min_viewers ≤ item.avg_viewers ∧ item.avg_viewers ≤ item.max_viewers := by
  unfold generateCategoryHistory
  constructor
  · simp only [mapWorld_length, List.length_range]
  · intro item hitem
    have hitem' : item ∈ (mapWorld (generateCategoryHistoryStep name b (newDate w).1)
        (List.range 24) (newDate w).2).1 := hitem
    obtain ⟨i, -, w0, hw0, rfl⟩ :=
      mapWorld_mem_of_invariant (fun w0 => w0.randomDraws = w.randomDraws)
        (generateCategoryHistoryStep name b (newDate w).1) (fun _ _ h => h) (List.range 24)
        (newDate w).2 rfl item hitem'
    have hr := hw (w0.randomReads)
    rw [← hw0] at hr
    obtain ⟨hf, hmin, hmax⟩ := generated_viewers_bounds b hb _ hr.1 hr.2
      (generateCategoryHistoryStep name b (newDate w).1 i w0).1.avg_viewers rfl
    refine ⟨rfl, hf, ?_, ?_, ?_, ?_⟩
    · rw [mul_comm]; rfl
    · rw [mul_comm]; rfl
    · exact hmin
    · exact hmax

/-- The points of `generateStreamHistory`. -/
theorem generateStreamHistory_points (name : String) (b : Int) (w : World)
    (hb : 0 ≤ b) (hw : w.drawsInUnit) :
    (generateStreamHistory name b w).1.length = 24 ∧
    ∀ item ∈ (generateStreamHistory name b w).1,
      item.channel = name ∧
      (∃ f : ℚ, 0.8 ≤ f ∧ f ≤ 1.2 ∧ item.avg_viewers = mathRound ((b : ℚ) * f)) ∧
      item.max_viewers = mathRound (1.2 * (item.avg_viewers : ℚ)) ∧
      item.min_viewers = mathRound (0.8 * (item.avg_viewers : ℚ)) ∧
      item.min_viewers ≤ item.avg_viewers ∧ item.avg_viewers ≤ item.max_viewers := by
  unfold generateStreamHistory
  constructor
  · simp only [mapWorld_length, List.length_range]
  · intro item hitem
    have hitem' : item ∈ (mapWorld (generateStreamHistoryStep name b (newDate w).1)
        (List.range 24) (newDate w).2).1 := hitem
    obtain ⟨i, -, w0, hw0, rfl⟩ :=
      mapWorld_mem_of_invariant (fun w0 => w0.randomDraws = w.randomDraws)
        (generateStreamHistoryStep name b (newDate w).1) (fun _ _ h => h) (List.range 24)
        (newDate w).2 rfl item hitem'
    have hr := hw (w0.randomReads)
    rw [← hw0] at hr
    obtain ⟨hf, hmin, hmax⟩ := generated_viewers_bounds b hb _ hr.1 hr.2
      (generateStreamHistoryStep name b (newDate w).1 i w0).1.avg_viewers rfl
    refine ⟨rfl, hf, ?_, ?_, ?_, ?_⟩
    · rw [mul_comm]; rfl
    · rw [mul_comm]; rfl
    · exact hmin
    · exact hmax

/-- C16: for every subject name, every base viewer count `b ≥ 0` and every sequence of
random draws in [0, 1), `generateCategoryHistory` and `generateStreamHistory` each return
exactly 24 points carrying that subject name, and every point has
`avg_viewers = round(b * f)` for a factor `f` between 0.8 and 1.2,
`max_viewers = round(1.2 * avg_viewers)` and `min_viewers = round(0.8 * avg_viewers)`, so
that `min_viewers ≤ avg_viewers ≤ max_viewers`. -/
theorem generated_histories_shape (name : String) (b : Int) (w : World)
    (hb : 0 ≤ b) (hw : w.drawsInUnit) :
    ((generateCategoryHistory name b w).1.length = 24 ∧
      ∀ item ∈ (generateCategoryHistory name b w).1,
        item.category = name ∧
        (∃ f : ℚ, 0.8 ≤ f ∧ f ≤ 1.2 ∧ item.avg_viewers = mathRound ((b : ℚ) * f)) ∧
        item.max_viewers = mathRound (1.2 * (item.avg_viewers : ℚ)) ∧
        item.min_viewers = mathRound (0.8 * (item.avg_viewers : ℚ)) ∧
        item.min_viewers ≤ item.avg_viewers ∧ item.avg_viewers ≤ item.max_viewers) ∧
    ((generateStreamHistory name b w).1.length = 24 ∧
      ∀ item ∈ (generateStreamHistory name b w).1,
        item.channel = name ∧
        (∃ f : ℚ, 0.8 ≤ f ∧ f ≤ 1.2 ∧ item.avg_viewers = mathRound ((b : ℚ) * f)) ∧
        item.max_viewers = mathRound (1.2 * (item.avg_viewers : ℚ)) ∧
        item.min_viewers = mathRound (0.8 * (item.avg_viewers : ℚ)) ∧
        item.min_viewers ≤ item.avg_viewers ∧ item.avg_viewers ≤ item.max_viewers) :=
  ⟨generateCategoryHistory_points name b w hb hw,
    generateStreamHistory_points name b w hb hw⟩

theorem sampleWorldJan31_drawsInUnit : sampleWorldJan31.drawsInUnit := by
  intro k
  show (0 : ℚ) ≤ 1 / 2 ∧ (1 / 2 : ℚ) < 1
  constructor <;> norm_num

theorem generated_histories_shape_witness :
    (0 : Int) ≤ 380000 ∧ sampleWorldJan31.drawsInUnit ∧
      (generateCategoryHistory "Just Chatting" 380000 sampleWorldJan31).1.length = 24 ∧
      (generateStreamHistory "xQc" 380000 sampleWorldJan31).1.length = 24 :=
  ⟨by decide, sampleWorldJan31_drawsInUnit,
    (generated_histories_shape "Just Chatting" 380000 sampleWorldJan31 (by decide)
      sampleWorldJan31_drawsInUnit).1.1,
    (generated_histories_shape "xQc" 380000 sampleWorldJan31 (by decide)
      sampleWorldJan31_drawsInUnit).2.1⟩

/-! ## Geometry of the category chart -/

theorem d3max_spec (l : List Int) (m : Int) (h : d3max l = some m) :
    m ∈ l ∧ ∀ x ∈ l, x ≤ m := by
  induction l generalizing m with
  | nil => simp [d3max] at h
  | cons a rest ih =>
    rcases hrest : d3max rest with _ | m'
    · have hnil : rest = [] := by
        cases rest with
        | nil => rfl
        | cons b t =>
          simp only [d3max] at hrest
          split at hrest <;> cases hrest
      subst hnil
      simp only [d3max, Option.some.injEq] at h
      subst h
      simp
    · simp only [d3max, hrest, Option.some.injEq] at h
      obtain ⟨hmem, hle⟩ := ih m' hrest
      subst h
      constructor
      · rcases le_total a m' with hc | hc
        · rw [max_eq_right hc]; exact List.mem_cons_of_mem _ hmem
        · rw [max_eq_left hc]; exact List.mem_cons_self _ _
      · intro x hx
        rcases List.mem_cons.1 hx with rfl | hx
        · exact le_max_left _ _
        · exact le_trans (hle x hx) (le_max_right _ _)

theorem d3max_isSome (l : List Int) (h : l ≠ []) : ∃ m, d3max l = some m := by
  cases l with
  | nil => exact absurd rfl h
  | cons a rest =>
    rcases hrest : d3max rest with _ | m'
    · exact ⟨a, by simp [d3max, hrest]⟩
    · exact ⟨max a m', by simp [d3max, hrest]⟩

/-- Over the domain `[0, 1.1 * m]` with `m > 0` and the range `[height, 0]`, the scale is
`height * (1 - v / (1.1 * m))`. -/
theorem scaleLinear_category (m : Int) (hm : 0 < m) (v : ℚ) :
    scaleLinear 0 ((m : ℚ) * 1.1) renderCategoryChart_height 0 v =
      190 * (1 - v / ((m : ℚ) * 1.1)) := by
  have hm' : (0 : ℚ) < (m : ℚ) := by exact_mod_cast hm
  have hD : (m : ℚ) * 1.1 - 0 ≠ 0 := by
    have : (0 : ℚ) < (m : ℚ) * 1.1 := by positivity
    linarith [this]
  unfold scaleLinear renderCategoryChart_height
  simp only [if_neg hD]
  norm_num

/-- The fraction of the domain covered by a viewer count between 0 and the maximum. -/
theorem viewers_fraction_bounds (m v : Int) (hm : 0 < m) (hv0 : 0 ≤ v) (hv : v ≤ m) :
    0 ≤ (v : ℚ) / ((m : ℚ) * 1.1) ∧ (v : ℚ) / ((m : ℚ) * 1.1) ≤ 1 := by
  have hm' : (0 : ℚ) < (m : ℚ) := by exact_mod_cast hm
  have hv0' : (0 : ℚ) ≤ (v : ℚ) := by exact_mod_cast hv0
  have hv' : (v : ℚ) ≤ (m : ℚ) := by exact_mod_cast hv
  have hD : (0 : ℚ) < (m : ℚ) * 1.1 := by positivity
  constructor
  · exact div_nonneg hv0' hD.le
  · rw [div_le_one hD]
    linarith

/-- C18: every bar of the category chart stays inside the plot area.  For every
categories collection with non-negative viewer counts and a positive maximum `m`, with
the linear scale `y` mapping `[0, 1.1 * m]` (the maximum taken over all categories) onto
`[height, 0]`, each drawn category `d` satisfies `0 ≤ y(d.viewers) ≤ height`, and its
bar height, `height - y(d.viewers)`, lies in `[0, height]` and is monotone
non-decreasing in `d.viewers`. -/
theorem categoryChart_bars_inside_plot (refs : Refs) (s : State)
    (href : refs.categoryChartRef = true)
    (hnonneg : ∀ c ∈ s.categories, 0 ≤ c.viewers)
    (hpos : ∃ c ∈ s.categories, 0 < c.viewers) :
    ∃ (m : Int) (bars : List BarRect),
      d3max (s.categories.map (fun d => d.viewers)) = some m ∧
      (∀ c ∈ s.categories, c.viewers ≤ m) ∧
      renderCategoryChart_rects refs s = .drew bars ∧
      bars.map (fun bar => (bar.category, bar.viewers)) =
        (s.categories.take 10).map (fun d => (d.category, d.viewers)) ∧
      (∀ bar ∈ bars,
        bar.y = scaleLinear 0 ((m : ℚ) * 1.1) renderCategoryChart_height 0 bar.viewers ∧
        bar.height = renderCategoryChart_height - bar.y ∧
        0 ≤ bar.y ∧ bar.y ≤ renderCategoryChart_height ∧
        0 ≤ bar.height ∧ bar.height ≤ renderCategoryChart_height) ∧
      (∀ b1 ∈ bars, ∀ b2 ∈ bars, b1.viewers ≤ b2.viewers → b1.height ≤ b2.height) := by
  obtain ⟨c0, hc0, hc0pos⟩ := hpos
  have hne : s.categories ≠ [] := List.ne_nil_of_mem hc0
  have hne' : s.categories.map (fun d => d.viewers) ≠ [] := by
    simpa using hne
  obtain ⟨m, hm⟩ := d3max_isSome _ hne'
  obtain ⟨-, hmax⟩ := d3max_spec _ m hm
  have hle : ∀ c ∈ s.categories, c.viewers ≤ m := fun c hc =>
    hmax c.viewers (List.mem_map.2 ⟨c, hc, rfl⟩)
  have hmpos : 0 < m := lt_of_lt_of_le hc0pos (hle c0 hc0)
  have hlen : s.categories.length ≠ 0 := fun h => hne (List.length_eq_zero.1 h)
  have hH : renderCategoryChart_height = 190 := by
    unfold renderCategoryChart_height; norm_num
  have hrects : renderCategoryChart_rects refs s =
      .drew ((s.categories.take 10).map (fun d =>
        { category := d.category, viewers := d.viewers,
          y := scaleLinear 0 ((m : ℚ) * 1.1) renderCategoryChart_height 0 d.viewers,
          height := renderCategoryChart_height -
            scaleLinear 0 ((m : ℚ) * 1.1) renderCategoryChart_height 0 d.viewers })) := by
    unfold renderCategoryChart_rects
    simp [href, hlen, hm]
  have hbar : ∀ bar ∈ (s.categories.take 10).map (fun d =>
        ({ category := d.category, viewers := d.viewers,
           y := scaleLinear 0 ((m : ℚ) * 1.1) renderCategoryChart_height 0 d.viewers,
           height := renderCategoryChart_height -
             scaleLinear 0 ((m : ℚ) * 1.1) renderCategoryChart_height 0 d.viewers }
          : BarRect)),
      bar.y = scaleLinear 0 ((m : ℚ) * 1.1) renderCategoryChart_height 0 bar.viewers ∧
      bar.height = renderCategoryChart_height - bar.y ∧
      0 ≤ bar.viewers ∧ bar.viewers ≤ m := by
    intro bar hbar
    obtain ⟨d, hd, rfl⟩ := List.mem_map.1 hbar
    have hd' : d ∈ s.categories := List.mem_of_mem_take hd
    exact ⟨rfl, rfl, hnonneg d hd', hle d hd'⟩
  refine ⟨m, _, hm, hle, hrects, ?_, ?_, ?_⟩
  · simp [List.map_map, Function.comp_def]
  · intro bar hmem
    obtain ⟨hy, hh, hv0, hv⟩ := hbar bar hmem
    obtain ⟨ht0, ht1⟩ := viewers_fraction_bounds m bar.viewers hmpos hv0 hv
    have hyv : bar.y = 190 * (1 - (bar.viewers : ℚ) / ((m : ℚ) * 1.1)) := by
      rw [hy, scaleLinear_category m hmpos]
    refine ⟨hy, hh, ?_, ?_, ?_, ?_⟩
    · rw [hyv]; nlinarith
    · rw [hyv, hH]; nlinarith
    · rw [hh, hyv, hH]; nlinarith
    · rw [hh, hyv, hH]; nlinarith
  · intro b1 h1 b2 h2 hv12
    obtain ⟨hy1, hh1, -, -⟩ := hbar b1 h1
    obtain ⟨hy2, hh2, -, -⟩ := hbar b2 h2
    have hD : (0 : ℚ) < (m : ℚ) * 1.1 := by
      have : (0 : ℚ) < (m : ℚ) := by exact_mod_cast hmpos
      positivity
    have hdiv : (b1.viewers : ℚ) / ((m : ℚ) * 1.1) ≤ (b2.viewers : ℚ) / ((m : ℚ) * 1.1) := by
      apply div_le_div_of_nonneg_right _ hD.le
      exact_mod_cast hv12
    rw [hh1, hh2, hy1, hy2, scaleLinear_category m hmpos, scaleLinear_category m hmpos]
    nlinarith

theorem categoryChart_bars_inside_plot_witness :
    allRefs.categoryChartRef = true ∧
      (∀ c ∈ elevenCategories, 0 ≤ c.viewers) ∧
      (∃ c ∈ elevenCategories, 0 < c.viewers) ∧
      ∃ (m : Int) (bars : List BarRect),
        d3max (elevenCategories.map (fun d => d.viewers)) = some m ∧
        renderCategoryChart_rects allRefs { initialState with categories := elevenCategories }
          = .drew bars ∧
        ∀ bar ∈ bars, 0 ≤ bar.y ∧ bar.y ≤ renderCategoryChart_height := by
  have hnonneg : ∀ c ∈ elevenCategories, 0 ≤ c.viewers := by decide
  have hpos : ∃ c ∈ elevenCategories, 0 < c.viewers :=
    ⟨⟨"late", 2, "", ""⟩, by decide, by decide⟩
  obtain ⟨m, bars, hm, -, hr, -, hb, -⟩ :=
    categoryChart_bars_inside_plot allRefs { initialState with categories := elevenCategories }
      (by decide) hnonneg hpos
  exact ⟨by decide, hnonneg, hpos, m, bars, hm, hr,
    fun bar hbar => ⟨(hb bar hbar).2.2.1, (hb bar hbar).2.2.2.1⟩⟩

end Dashboard
